import Mathlib

/-!
Verification of the habit / goal-conflict / recommendation-ranking core of the
Investment-Advisory repository (package `habit_goalconflict_airanking`).

Python floats are modelled as rationals (`ℚ`), Python ints as `ℤ`/`ℕ`, Python
strings as `String`.  Python `round(x, n)` (round-half-to-even on the scaled
value) is modelled by `pyRound`.  The external ML artifacts (habit classifier,
strategy classifier, TF-IDF template ranker) and the real-valued calibration
exponent `x ** 0.82` are modelled as explicit parameters, since they are either
out-of-repository resources or not rational-valued; every theorem that needs a
property of the exponent states it as an explicit hypothesis satisfied by the
real function `x ↦ x ^ (0.82 : ℝ)` (namely: it maps `0` to `0` and nonnegatives
to nonnegatives).

Free-text fields of output rows whose content no claim inspects (rationale
sentences built with printf-style float formatting) are omitted; all numeric
fields, labels and list structure are embedded faithfully.
-/

/-- Round-half-to-even on a rational, returning the integer Python`s `round`
would produce for that exact value. -/
def roundHalfEven (x : ℚ) : ℤ :=
  let n : ℤ := ⌊x⌋
  let r : ℚ := x - n
  if r < 1/2 then n
  else if 1/2 < r then n + 1
  else if n % 2 = 0 then n else n + 1

/-- Model of Python `round(x, n)` on our rational idealization of floats. -/
def pyRound (n : ℕ) (x : ℚ) : ℚ :=
  (roundHalfEven (x * 10 ^ n) : ℚ) / 10 ^ n

/-- Model of Python `min(max(x, 0.0), 1.0)`. -/
def clamp01 (x : ℚ) : ℚ := min (max x 0) 1

theorem roundHalfEven_ge {m : ℤ} {x : ℚ} (h : (m : ℚ) ≤ x) : m ≤ roundHalfEven x := by
  unfold roundHalfEven
  have hf : m ≤ ⌊x⌋ := Int.le_floor.mpr h
  dsimp only
  split
  · exact hf
  · split
    · omega
    · split <;> omega

theorem roundHalfEven_le {m : ℤ} {x : ℚ} (h : x ≤ (m : ℚ)) : roundHalfEven x ≤ m := by
  unfold roundHalfEven
  have hf : ⌊x⌋ ≤ m := by
    calc ⌊x⌋ ≤ ⌊(m : ℚ)⌋ := Int.floor_le_floor h
    _ = m := Int.floor_intCast m
  dsimp only
  split
  · exact hf
  · have hlt : ⌊x⌋ < m := by
      rcases lt_or_eq_of_le hf with h' | h'
      · exact h'
      · exfalso
        have hx : x - (⌊x⌋ : ℚ) ≤ 0 := by
          rw [h']; linarith
        have : x - (⌊x⌋ : ℚ) < 1/2 := by linarith
        simp only [not_lt] at *
        linarith
    split
    · omega
    · split <;> omega

theorem roundHalfEven_intCast (m : ℤ) : roundHalfEven (m : ℚ) = m := by
  unfold roundHalfEven
  have : ((m : ℚ) - (⌊(m : ℚ)⌋ : ℚ)) = 0 := by
    rw [Int.floor_intCast]; ring
  simp [Int.floor_intCast, this]

theorem pyRound_ge {m : ℤ} {n : ℕ} {x : ℚ} (h : (m : ℚ) ≤ x * 10 ^ n) :
    (m : ℚ) / 10 ^ n ≤ pyRound n x := by
  unfold pyRound
  have hten : (0:ℚ) < 10 ^ n := by positivity
  have := roundHalfEven_ge h
  have hc : (m : ℚ) ≤ (roundHalfEven (x * 10 ^ n) : ℚ) := by exact_mod_cast this
  exact div_le_div_of_nonneg_right hc hten.le |>.trans_eq rfl

theorem pyRound_le {m : ℤ} {n : ℕ} {x : ℚ} (h : x * 10 ^ n ≤ (m : ℚ)) :
    pyRound n x ≤ (m : ℚ) / 10 ^ n := by
  unfold pyRound
  have hten : (0:ℚ) < 10 ^ n := by positivity
  have := roundHalfEven_le h
  have hc : (roundHalfEven (x * 10 ^ n) : ℚ) ≤ (m : ℚ) := by exact_mod_cast this
  exact div_le_div_of_nonneg_right hc hten.le

theorem pyRound_eq_self {m : ℤ} {n : ℕ} {x : ℚ} (h : x * 10 ^ n = (m : ℚ)) :
    pyRound n x = x := by
  unfold pyRound
  rw [h, roundHalfEven_intCast]
  have hten : (10:ℚ) ^ n ≠ 0 := by positivity
  field_simp at h ⊢
  linarith [h]

theorem pyRound_nonneg {n : ℕ} {x : ℚ} (h : 0 ≤ x) : 0 ≤ pyRound n x := by
  have h0 : ((0:ℤ) : ℚ) ≤ x * 10 ^ n := by positivity
  have := pyRound_ge (m := 0) h0
  simpa using this

theorem pyRound_le_one {n : ℕ} {x : ℚ} (h : x ≤ 1) : pyRound n x ≤ 1 := by
  have hten : (0:ℚ) < 10 ^ n := by positivity
  have h1 : x * 10 ^ n ≤ (((10:ℤ) ^ n : ℤ) : ℚ) := by
    push_cast
    nlinarith
  have := pyRound_le h1
  calc pyRound n x ≤ (((10:ℤ) ^ n : ℤ) : ℚ) / 10 ^ n := this
  _ = 1 := by push_cast; field_simp

theorem clamp01_nonneg (x : ℚ) : 0 ≤ clamp01 x := by
  unfold clamp01
  rcases le_total (max x 0) 1 with h | h <;> simp [min_def, h, le_max_right]

theorem clamp01_le_one (x : ℚ) : clamp01 x ≤ 1 := min_le_right _ _

/-! ### String helpers

Executable models of the Python string operations used by the core
(`str.lower`, `str.strip`, and the substring test `w in text`), implemented
structurally over the character list so that concrete instances reduce. -/

/-- ASCII lower-casing of one character (the only case the repository feeds in). -/
def lowerChar (c : Char) : Char :=
  if 65 ≤ c.toNat ∧ c.toNat ≤ 90 then Char.ofNat (c.toNat + 32) else c

/-- Model of Python `str.lower()`. -/
def lowerStr (s : String) : String := ⟨s.data.map lowerChar⟩

/-- Whitespace test used by `str.strip()`. -/
def isSpaceChar (c : Char) : Bool := c = ' ' || c = '\t' || c = '\n' || c = '\r'

/-- Model of Python `str.strip()`. -/
def stripStr (s : String) : String :=
  ⟨((s.data.dropWhile isSpaceChar).reverse.dropWhile isSpaceChar).reverse⟩

/-- Boolean test that `p` occurs as a contiguous run inside `l`. -/
def listHasRun (p l : List Char) : Bool := l.tails.any (fun t => p.isPrefixOf t)

/-- Model of the Python substring test `pat in text`. -/
def subTextIn (text pat : String) : Bool := listHasRun pat.data text.data

/-! ### Ranking input and context-adaptive weights
(`recommendation_ranking_model.py`). -/

/-- Upstream outputs consumed by the ranking model: the nested dict accesses
`goal_conflict.overall_conflict_score`, `goal_conflict.goal_conflicts`,
`habit_detection.confidence` and `transaction_analysis.alerts` (only its
length is used). -/
structure UpstreamOutputs where
  overall_conflict_score : ℚ := 0
  goal_conflicts : List (String × ℚ) := []
  habit_confidence : ℚ := 0
  transaction_alerts_count : ℕ := 0

/-- The `user_profile` mapping fields read by the ranking model. -/
structure UserProfileR where
  behavior_style : String := "balanced"
  category : String := ""
  habit_intensity : String := "Low"
  frequency : ℚ := 0
  night_ratio : ℚ := 0
  weekend_ratio : ℚ := 0
  consistency : ℚ := 1/2

/-- Dataclass `RankingInput` of `recommendation_ranking_model.py`. -/
structure RankingInput where
  habit_severity : ℚ
  goal_feasibility : ℚ
  risk_awareness : ℚ
  user_profile : UserProfileR
  upstream_outputs : UpstreamOutputs

/-- The seven-component weight dictionary built by `_context_weights`. -/
structure Weights where
  base : ℚ
  severity : ℚ
  goal : ℚ
  risk : ℚ
  profile : ℚ
  urgency : ℚ
  upstream : ℚ

/-- Model of `RecommendationRankingPersonalizationModel._context_weights`. -/
def context_weights (ri : RankingInput) : Weights :=
  let w : Weights :=
    { base := 0.18, severity := 0.18, goal := 0.16, risk := 0.12,
      profile := 0.14, urgency := 0.12, upstream := 0.10 }
  let w := if ri.goal_feasibility < 0.45 then
      { w with goal := w.goal + 0.06, urgency := w.urgency + 0.03, base := w.base - 0.04 }
    else w
  let w := if ri.habit_severity > 0.75 then
      { w with severity := w.severity + 0.05, profile := w.profile - 0.02 }
    else w
  if ri.risk_awareness < 0.4 then
    { w with risk := w.risk + 0.05, upstream := w.upstream - 0.02 }
  else w

/-- Sum of the seven weights of a `Weights` record. -/
def weightsSum (w : Weights) : ℚ :=
  w.base + w.severity + w.goal + w.risk + w.profile + w.urgency + w.upstream

/-! ### Category configuration (`category_config.py`) -/

/-- The `CATEGORY_TO_NATURE` mapping: each allowed category (lower-cased) paired
with its expense nature. -/
def CATEGORY_TO_NATURE : List (String × String) :=
  [("rent", "Fixed"), ("insurance", "Fixed"), ("loan payments", "Fixed"),
   ("food and groceries", "Variable"), ("utilities", "Variable"),
   ("transport", "Variable"), ("medical", "Variable"),
   ("dinning out", "Discretionary"), ("shopping", "Discretionary"),
   ("entertainment", "Discretionary"), ("subscriptions", "Discretionary"),
   ("travel", "Discretionary")]

/-- Model of Python `dict.get(key, default)` over an association list. -/
def dictGet (table : List (String × String)) (key dflt : String) : String :=
  match table.find? (fun p => p.1 = key) with
  | some p => p.2
  | none => dflt

/-! ### Habit signal detector (`habbit.py`, class `RuleEnhancedHabitDetector`) -/

/-- The `behavior_features` dict consumed by the detector. -/
structure BehaviorFeatures where
  avg_weekly_frequency : ℚ
  consistency : ℚ
  weeks_active : ℚ
  weekend_ratio : ℚ
  night_ratio : ℚ

/-- Model of `RuleEnhancedHabitDetector._rule_score`. -/
def rule_score (bf : BehaviorFeatures) : ℚ :=
  let s : ℚ :=
    (if 4 ≤ bf.avg_weekly_frequency then 0.25 else 0)
    + (if 0.6 ≤ bf.consistency then 0.2 else 0)
    + (if 8 ≤ bf.weeks_active then 0.2 else 0)
    + (if 0.55 ≤ bf.weekend_ratio then 0.15 else 0)
    + (if 0.45 ≤ bf.night_ratio then 0.2 else 0)
  clamp01 s

/-- Model of `RuleEnhancedHabitDetector._ml_score`.  The optional trained
classifier (`self.model`, a joblib artifact outside this repository) is an
explicit parameter; `none` is the graceful fallback path, and a model-inference
exception also degrades to the rule score (covered by the `none` case). -/
def ml_score (model : Option (BehaviorFeatures → ℚ)) (bf : BehaviorFeatures) : ℚ :=
  match model with
  | none => rule_score bf
  | some f => f bf

/-- Model of `RuleEnhancedHabitDetector._habit_intensity`. -/
def habit_intensity_label (combined : ℚ) : String :=
  if 0.75 ≤ combined then "High"
  else if 0.5 ≤ combined then "Medium"
  else "Low"

/-- Model of `RuleEnhancedHabitDetector._habit_category`. -/
def habit_category_desc (category : String) (bf : BehaviorFeatures) : String :=
  let category_key := lowerStr (stripStr category)
  let nature := dictGet CATEGORY_TO_NATURE category_key ""
  if nature = "Fixed" then
    "Recurring fixed-payment pattern (" ++ category ++ ")"
  else if 0.5 ≤ bf.night_ratio ∧
      (category_key = "food and groceries" ∨ category_key = "dinning out") then
    "Late-night food spending"
  else if 0.55 ≤ bf.weekend_ratio then
    "Weekend-heavy " ++ category ++ " spending"
  else if 5 ≤ bf.avg_weekly_frequency then
    "High-frequency " ++ category ++ " spending"
  else
    "Recurring " ++ category ++ " spending"

/-- Output dict of `RuleEnhancedHabitDetector.predict` (the `scores`
sub-dictionary is flattened into the record). -/
structure HabitResult where
  habit_detected : Bool
  habit_category : String
  habit_intensity : String
  confidence : ℚ
  ml_score_out : ℚ
  rule_score_out : ℚ
  model_loaded : Bool

/-- Model of `RuleEnhancedHabitDetector.predict`. -/
def predict (model : Option (BehaviorFeatures → ℚ)) (bf : BehaviorFeatures)
    (category : String) : HabitResult :=
  let category_key := lowerStr (stripStr category)
  let nature := dictGet CATEGORY_TO_NATURE category_key ""
  if nature = "Fixed" then
    { habit_detected := false
      habit_category := habit_category_desc category bf
      habit_intensity := "Low"
      confidence := pyRound 3 0
      ml_score_out := 0
      rule_score_out := 0
      model_loaded := model.isSome }
  else
    let ml := ml_score model bf
    let rule := rule_score bf
    let combined := match model with
      | none => ml
      | some _ => 0.7 * ml + 0.3 * rule
    { habit_detected := decide (0.5 ≤ combined)
      habit_category := habit_category_desc category bf
      habit_intensity := habit_intensity_label combined
      confidence := pyRound 3 combined
      ml_score_out := pyRound 3 ml
      rule_score_out := pyRound 3 rule
      model_loaded := model.isSome }

/-! ### Goal conflict scorer (`conflict_detection_model.py`,
class `ExpenseGoalConflictModel`) -/

/-- The `habit_detection` dict fields read by the conflict model. -/
structure HabitDetectionIn where
  confidence : ℚ := 0
  habit_detected : Bool := false
  habit_intensity : String := "Low"

/-- The `profile` dict fields read by the conflict model. -/
structure ProfileC where
  category : String := ""
  spend : ℚ := 0
  frequency : ℚ := 0
  weekend_ratio : ℚ := 0
  night_ratio : ℚ := 0
  consistency : ℚ := 0

/-- A raw goal dict as passed to `detect_conflicts`. -/
structure GoalDict where
  goal_name : String := "Unnamed Goal"
  target_amount : ℚ := 0
  current_amount : ℚ := 0
  timeline_months : ℤ := 1
  priority : ℤ := 3
  protected_categories : List String := []
  goal_type : String := "General"

/-- Dataclass `GoalConflictInput` (the normalized goal). -/
structure GoalConflictInput where
  goal_name : String
  target_amount : ℚ
  current_amount : ℚ
  timeline_months : ℤ
  priority : ℤ
  protected_categories : List String
  goal_type : String

/-- The `context` dict field read by `detect_conflicts`. -/
structure ContextC where
  monthly_savings_capacity : ℚ := 0

/-- The constant `INTENSITY_SCORE` lookup with its `0.3` default. -/
def intensity_score_of (intensity : String) : ℚ :=
  if intensity = "Low" then 0.3
  else if intensity = "Medium" then 0.6
  else if intensity = "High" then 0.9
  else 0.3

/-- Model of `ExpenseGoalConflictModel._normalize_goal`.  The Python
`str(...).strip() or "Unnamed Goal"` idiom is modelled by the empty-string
test after stripping. -/
def normalize_goal (g : GoalDict) : GoalConflictInput :=
  let name := stripStr g.goal_name
  let gtype := stripStr g.goal_type
  { goal_name := if name = "" then "Unnamed Goal" else name
    target_amount := max g.target_amount 0
    current_amount := max g.current_amount 0
    timeline_months := max g.timeline_months 1
    priority := max 1 (min g.priority 5)
    protected_categories := g.protected_categories.map (fun c => lowerStr (stripStr c))
    goal_type := if gtype = "" then "General" else gtype }

/-- Model of `ExpenseGoalConflictModel._behavior_pressure`. -/
def behavior_pressure (hd : HabitDetectionIn) (p : ProfileC) : ℚ :=
  let confidence := hd.confidence
  let spend := max p.spend 0
  let frequency := max p.frequency 0
  let weekend_ratio := clamp01 p.weekend_ratio
  let night_ratio := clamp01 p.night_ratio
  let consistency := clamp01 p.consistency
  let normalized_spend := min (spend / 4000) 1
  let normalized_frequency := min (frequency / 7) 1
  let intensity_score := intensity_score_of hd.habit_intensity
  let score :=
    0.28 * confidence + 0.20 * normalized_spend + 0.16 * normalized_frequency
    + 0.12 * weekend_ratio + 0.10 * night_ratio + 0.14 * consistency
  let score := if hd.habit_detected then score + 0.12 * intensity_score else score
  clamp01 score

/-- Model of `ExpenseGoalConflictModel._goal_pressure`. -/
def goal_pressure_of (goal : GoalConflictInput) (monthly_capacity : ℚ) : ℚ :=
  let remaining := max (goal.target_amount - goal.current_amount) 0
  let progress_ratio :=
    if goal.target_amount ≤ 0 then 1 else min (goal.current_amount / goal.target_amount) 1
  let urgency := min 1 (6 / (goal.timeline_months : ℚ))
  let priority_weight := (goal.priority : ℚ) / 5
  let monthly_required := remaining / (max goal.timeline_months 1 : ℤ)
  let affordability :=
    if monthly_capacity ≤ 0 then (if 0 < monthly_required then 1 else 0)
    else min (monthly_required / monthly_capacity) 1
  clamp01 (0.40 * priority_weight + 0.25 * urgency + 0.20 * affordability
    + 0.15 * (1 - progress_ratio))

/-- The `GOAL_CATEGORY_CONFLICT_WEIGHTS` nested lookup, with the `0.12`
default of `_category_conflict_penalty`. -/
def goal_category_conflict_weight (goal_type category : String) : ℚ :=
  if goal_type = "Emergency Fund" then
    (if category = "dinning out" then 0.3
     else if category = "shopping" then 0.28
     else if category = "entertainment" then 0.25
     else if category = "subscriptions" then 0.2
     else if category = "travel" then 0.25
     else 0.12)
  else if goal_type = "Debt Reduction" then
    (if category = "dinning out" then 0.25
     else if category = "shopping" then 0.27
     else if category = "entertainment" then 0.2
     else if category = "subscriptions" then 0.22
     else if category = "travel" then 0.28
     else 0.12)
  else if goal_type = "Investment" then
    (if category = "dinning out" then 0.22
     else if category = "shopping" then 0.25
     else if category = "entertainment" then 0.22
     else if category = "subscriptions" then 0.2
     else if category = "travel" then 0.25
     else 0.12)
  else 0.12

/-- Model of `ExpenseGoalConflictModel._category_conflict_penalty`. -/
def category_conflict_penalty (goal : GoalConflictInput) (normalized_category : String) : ℚ :=
  let base_penalty := goal_category_conflict_weight goal.goal_type normalized_category
  let base_penalty :=
    if normalized_category ∈ goal.protected_categories then base_penalty + 0.25
    else base_penalty
  clamp01 base_penalty

/-- The `GOAL_ALIGNMENT_WEIGHTS` nested lookup of `_alignment_discount`
(default `0.0`). -/
def alignment_discount (goal : GoalConflictInput) (normalized_category : String) : ℚ :=
  if normalized_category = "travel" then (if goal.goal_type = "Travel" then 0.24 else 0)
  else if normalized_category = "medical" then
    (if goal.goal_type = "Medical Reserve" then 0.22 else 0)
  else if normalized_category = "loan payments" then
    (if goal.goal_type = "Debt Reduction" then 0.26 else 0)
  else 0

/-- Model of `ExpenseGoalConflictModel._severity`: descending threshold lookup
over `SEVERITY_THRESHOLDS` in its insertion order. -/
def severity_label (score : ℚ) : String :=
  if 0.8 ≤ score then "Critical"
  else if 0.62 ≤ score then "High"
  else if 0.42 ≤ score then "Medium"
  else "Low"

/-- Model of `ExpenseGoalConflictModel._monthly_required`. -/
def monthly_required_of (goal : GoalConflictInput) : ℚ :=
  max (goal.target_amount - goal.current_amount) 0 / (max goal.timeline_months 1 : ℤ)

/-- One entry of the `goal_conflicts` list built by `detect_conflicts`.
The `recommended_action` / `explanation` template strings (parameterized with
printf-style float formatting) are not embedded; no claim inspects them. -/
structure GoalConflictRow where
  goal_name : String
  goal_type : String
  severity : String
  conflict_score : ℚ
  priority : ℤ
  monthly_required : ℚ

/-- The unclamped-then-clamped per-goal conflict score of the
`detect_conflicts` loop body. -/
def goal_conflict_score (hd : HabitDetectionIn) (p : ProfileC) (ctx : ContextC)
    (g : GoalDict) : ℚ :=
  let bp := behavior_pressure hd p
  let monthly_capacity := max ctx.monthly_savings_capacity 0
  let normalized_category := lowerStr (stripStr p.category)
  let goal := normalize_goal g
  clamp01 (0.45 * bp + 0.35 * goal_pressure_of goal monthly_capacity
    + 0.20 * category_conflict_penalty goal normalized_category
    - alignment_discount goal normalized_category)

/-- The `goal_conflicts` entry built for one raw goal inside
`detect_conflicts`. -/
def goal_conflict_row (hd : HabitDetectionIn) (p : ProfileC) (ctx : ContextC)
    (g : GoalDict) : GoalConflictRow :=
  let goal := normalize_goal g
  let score := goal_conflict_score hd p ctx g
  { goal_name := goal.goal_name
    goal_type := goal.goal_type
    severity := severity_label score
    conflict_score := pyRound 3 score
    priority := goal.priority
    monthly_required := pyRound 2 (monthly_required_of goal) }

/-- One entry of the `alerts` list (its `message` / `recommended_action`
strings are omitted, as for `GoalConflictRow`). -/
structure AlertRow where
  goal_name : String
  severity : String

/-- Result dict of `detect_conflicts` (`explanation_text` omitted; no claim
inspects it). -/
structure ConflictResult where
  conflict_detected : Bool
  overall_conflict_score : ℚ
  overall_severity : String
  alerts : List AlertRow
  goal_conflicts : List GoalConflictRow

/-- Maximum of a list of rationals as used for `max(...)` over the per-goal
scores (the list is nonempty whenever it is consulted; `0` is an unreachable
placeholder for the empty case, where Python `max` would raise). -/
def maxQ : List ℚ → ℚ
  | [] => 0
  | x :: xs => xs.foldl max x

/-- Model of `ExpenseGoalConflictModel.detect_conflicts`. -/
def detect_conflicts (hd : HabitDetectionIn) (active_goals : List GoalDict)
    (p : ProfileC) (ctx : ContextC) : ConflictResult :=
  if active_goals.isEmpty then
    { conflict_detected := false
      overall_conflict_score := 0
      overall_severity := "Low"
      alerts := []
      goal_conflicts := [] }
  else
    let rows := active_goals.map (goal_conflict_row hd p ctx)
    let sorted := rows.mergeSort (fun a b => decide (b.conflict_score ≤ a.conflict_score))
    let alerts :=
      ((sorted.filter (fun r =>
          r.severity = "Critical" || r.severity = "High" || r.severity = "Medium")).take 5).map
        (fun r => { goal_name := r.goal_name, severity := r.severity : AlertRow })
    let overall_score := maxQ (sorted.map (fun r => r.conflict_score))
    let overall_severity := severity_label overall_score
    let conflict_detected :=
      overall_severity = "Critical" || overall_severity = "High" || overall_severity = "Medium"
    { conflict_detected := conflict_detected
      overall_conflict_score := pyRound 3 overall_score
      overall_severity := overall_severity
      alerts := alerts
      goal_conflicts := sorted }

/-! ### Personalized ranking and calibration model
(`recommendation_ranking_model.py`, class
`RecommendationRankingPersonalizationModel`) -/

/-- A candidate as accepted by `rank`: either a bare string or a structured
record (the union type `list[str] | list[dict]`). -/
inductive CandidateIn where
  | bare (text : String)
  | record (recommendation : String) (base_score : ℚ) (template_key : String)

/-- The normalized candidate produced by `_normalize_candidate`. -/
structure Candidate where
  recommendation : String
  base_score : ℚ
  template_key : String

/-- Model of `RecommendationRankingPersonalizationModel._normalize_candidate`. -/
def normalize_candidate (c : CandidateIn) : Candidate :=
  match c with
  | .bare text => { recommendation := text, base_score := 0.5, template_key := "cooldown_rule" }
  | .record recommendation base_score template_key =>
      { recommendation := stripStr recommendation
        base_score := clamp01 base_score
        template_key := stripStr template_key }

/-- The `TEMPLATE_DIFFICULTY` lookup with its `"Moderate"` default. -/
def template_difficulty (template_key : String) : String :=
  if template_key = "time_shift" then "Easy"
  else if template_key = "home_substitution" then "Easy"
  else if template_key = "bundle_plan" then "Moderate"
  else if template_key = "low_cost_swap" then "Moderate"
  else if template_key = "cooldown_rule" then "Behavioral Shift Required"
  else "Moderate"

/-- Model of `RecommendationRankingPersonalizationModel._profile_fit`. -/
def profile_fit (cand : Candidate) (up : UserProfileR) : ℚ :=
  let behavior_style := lowerStr up.behavior_style
  let text := lowerStr cand.recommendation
  let template_key := cand.template_key
  let strong_action :=
    subTextIn text "freeze" || subTextIn text "immediate" || subTextIn text "cap"
    || subTextIn text "reallocate"
  let light_action :=
    subTextIn text "review" || subTextIn text "monitor" || subTextIn text "track"
    || subTextIn text "planned"
  if behavior_style = "disciplined" ∨ behavior_style = "aggressive" then
    (if strong_action then 0.9 else 0.6)
  else if behavior_style = "conservative" ∨ behavior_style = "light_touch" then
    (if light_action then 0.9 else 0.55)
  else if template_key = "bundle_plan" ∨ template_key = "low_cost_swap" then 0.8
  else if strong_action || light_action then 0.75 else 0.65

/-- Model of `RecommendationRankingPersonalizationModel._urgency_signal`. -/
def urgency_signal (cand : Candidate) (ri : RankingInput) : ℚ :=
  let text := lowerStr cand.recommendation
  let template_key := cand.template_key
  let urgent_action :=
    subTextIn text "immediate" || subTextIn text "freeze" || subTextIn text "at least"
    || subTextIn text "redirect"
  let planned_action :=
    subTextIn text "weekly" || subTextIn text "monthly" || subTextIn text "planned"
    || subTextIn text "schedule"
  let goal_pressure := 1 - ri.goal_feasibility
  let signal := 0.45 * goal_pressure + 0.25 * ri.habit_severity
  let signal := if urgent_action then signal + 0.2 else signal
  let signal := if planned_action then signal + 0.1 else signal
  let signal := if template_key = "cooldown_rule" then signal + 0.08 else signal
  clamp01 signal

/-- Model of `RecommendationRankingPersonalizationModel._risk_fit`. -/
def risk_fit (cand : Candidate) (ri : RankingInput) : ℚ :=
  let text := lowerStr cand.recommendation
  let template_key := cand.template_key
  let safe_action :=
    subTextIn text "planned" || subTextIn text "review" || subTextIn text "cap"
    || subTextIn text "budget" || subTextIn text "track"
  let high_control :=
    subTextIn text "freeze" || subTextIn text "redirect" || subTextIn text "reallocate"
  let fit := 0.35 * ri.risk_awareness
  let fit := if safe_action then fit + 0.35 else fit
  let fit := if high_control ∧ ri.habit_severity > 0.75 then fit + 0.2 else fit
  let fit := if template_key = "time_shift" ∧ 0.45 ≤ ri.user_profile.night_ratio then
      fit + 0.12
    else fit
  clamp01 fit

/-- Model of `RecommendationRankingPersonalizationModel._upstream_signal`. -/
def upstream_signal (uo : UpstreamOutputs) : ℚ :=
  let conflict := uo.overall_conflict_score
  let habit_conf := uo.habit_confidence
  let transaction_pressure := min ((uo.transaction_alerts_count : ℚ) / 3) 1
  clamp01 (0.45 * conflict + 0.35 * habit_conf + 0.20 * transaction_pressure)

/-- Model of `RecommendationRankingPersonalizationModel._behavior_signals`. -/
def behavior_signals (ri : RankingInput) : ℚ × ℚ × ℚ :=
  (clamp01 (ri.user_profile.frequency / 7),
   clamp01 ri.user_profile.night_ratio,
   clamp01 ri.user_profile.consistency)

/-- Model of `RecommendationRankingPersonalizationModel._success_delta`. -/
def success_delta (score : ℚ) (cand : Candidate) : ℚ :=
  let difficulty := template_difficulty cand.template_key
  let multiplier : ℚ :=
    if difficulty = "Easy" then 1.15
    else if difficulty = "Behavioral Shift Required" then 0.85
    else 1
  pyRound 1 (min 22 (max 6 (score * 18 * multiplier)))

/-- Model of `RecommendationRankingPersonalizationModel._score_tier`. -/
def score_tier (score_pct : ℚ) : String :=
  if 85 ≤ score_pct then "Critical"
  else if 70 ≤ score_pct then "High"
  else if 55 ≤ score_pct then "Moderate"
  else "Low"

/-- Model of `max(dominance, key=dominance.get)`: the first key (in the
insertion order of the `dominance` dict) carrying the largest value. -/
def first_max_key (pairs : List (String × ℚ)) : String :=
  match pairs with
  | [] => ""
  | h :: t => (t.foldl (fun best p => if best.2 < p.2 then p else best) h).1

/-- One scored row of `rank` before calibration.  The rationale strings
(`why_ranked`, `technical_why`), the `impacts_goal` name and the calibration
fields added later default to placeholders; all numeric fields mirror the
dict built in the scoring loop (rounded exactly where the code rounds). -/
structure RRow where
  recommendation : String
  template_key : String
  difficulty_level : String
  dominant_factor : String
  raw_score : ℚ
  base_score : ℚ
  habit_severity : ℚ
  goal_pressure : ℚ
  risk_fit : ℚ
  profile_fit : ℚ
  urgency_signal : ℚ
  upstream_signal : ℚ
  feasibility_impact_pct : ℚ
  goal_success_probability_before : ℚ
  goal_success_probability_after : ℚ
  goal_timeline_reduction_months : ℚ
  score : ℚ := 0
  score_pct : ℚ := 0
  score_tier : String := ""
  rank : ℕ := 0

/-- The unrounded, clamped final score of the scoring loop for one candidate. -/
def final_score_of (cand : Candidate) (ri : RankingInput) (w : Weights) : ℚ :=
  let goal_pressure := 1 - ri.goal_feasibility
  clamp01 (w.base * cand.base_score
    + w.severity * ri.habit_severity
    + w.goal * goal_pressure
    + w.risk * risk_fit cand ri
    + w.profile * profile_fit cand ri.user_profile
    + w.urgency * urgency_signal cand ri
    + w.upstream * upstream_signal ri.upstream_outputs)

/-- The scoring-loop body of `rank` for one normalized candidate. -/
def score_row (ri : RankingInput) (w : Weights) (base_success_probability : ℚ)
    (cand : Candidate) : RRow :=
  let goal_pressure := 1 - ri.goal_feasibility
  let fs := final_score_of cand ri
  let final_score := fs w
  let sig := behavior_signals ri
  let dominant_factor := first_max_key
    [("severity", w.severity * ri.habit_severity),
     ("goal_pressure", w.goal * goal_pressure),
     ("frequency", w.urgency * sig.1),
     ("night_spikes", w.risk * sig.2.1),
     ("consistency_risk", w.profile * (1 - sig.2.2))]
  let delta := success_delta final_score cand
  let success_probability_after := min 98 (pyRound 1 (base_success_probability + delta))
  let feasibility_impact_pct :=
    pyRound 1 (-(min 20 (6 + 18 * final_score * goal_pressure)))
  let goal_timeline_reduction :=
    pyRound 1 (max 0.6 ((success_probability_after - base_success_probability) / 5))
  { recommendation := cand.recommendation
    template_key := cand.template_key
    difficulty_level := template_difficulty cand.template_key
    dominant_factor := dominant_factor
    raw_score := pyRound 4 final_score
    base_score := pyRound 4 cand.base_score
    habit_severity := pyRound 4 ri.habit_severity
    goal_pressure := pyRound 4 goal_pressure
    risk_fit := pyRound 4 (risk_fit cand ri)
    profile_fit := pyRound 4 (profile_fit cand ri.user_profile)
    urgency_signal := pyRound 4 (urgency_signal cand ri)
    upstream_signal := pyRound 4 (upstream_signal ri.upstream_outputs)
    feasibility_impact_pct := feasibility_impact_pct
    goal_success_probability_before := base_success_probability
    goal_success_probability_after := success_probability_after
    goal_timeline_reduction_months := goal_timeline_reduction }

/-- Minimum of a list of rationals with Python `min(raw) if raw else 0.0`
semantics, and the matching maximum with default `1.0`
(`_calibrate_scores`). -/
def minQ (dflt : ℚ) : List ℚ → ℚ
  | [] => dflt
  | x :: xs => xs.foldl min x

/-- Model of `RecommendationRankingPersonalizationModel._calibrate_scores`.
The real-valued exponentiation `normalized ** 0.82` is the parameter `rp`. -/
def calibrate_scores (rp : ℚ → ℚ) (rows : List RRow) : List RRow :=
  let raw := rows.map (fun r => r.raw_score)
  let low := minQ 0 raw
  let high := match raw with | [] => 1 | x :: xs => xs.foldl max x
  let spread := max (high - low) (1 / 1000000)
  rows.map (fun row =>
    let normalized := (row.raw_score - low) / spread
    let widened := 0.55 + 0.43 * rp normalized
    let score := pyRound 4 (min (max widened 0) 0.99)
    let score_pct := pyRound 1 (score * 100)
    { row with score := score, score_pct := score_pct, score_tier := score_tier score_pct })

/-- Model of `for idx, row in enumerate(ranked, start=1): row["rank"] = idx`. -/
def assign_ranks (n : ℕ) : List RRow → List RRow
  | [] => []
  | r :: rs => { r with rank := n } :: assign_ranks (n + 1) rs

/-- Model of `RecommendationRankingPersonalizationModel.rank` (the candidate
list may mix bare strings and records; `top_k` is a Python int). -/
def rank (rp : ℚ → ℚ) (candidates : List CandidateIn) (ri : RankingInput)
    (top_k : ℤ) : List RRow :=
  let normalized := candidates.map normalize_candidate
  let w := context_weights ri
  let goal_feasibility := clamp01 ri.goal_feasibility
  let base_success_probability := max 20 (min 95 (pyRound 1 (goal_feasibility * 100)))
  let scored := normalized.map (score_row ri w base_success_probability)
  let calibrated := calibrate_scores rp scored
  let sorted := calibrated.mergeSort (fun a b => decide (b.score ≤ a.score))
  let ranked := sorted.take (max top_k 1).toNat
  assign_ranks 1 ranked

/-! ### Candidate generator / recommendation engine
(`recommendation_engine.py`) and `build_ranking_input`
(`recommendation_ranking_model.py`). -/

/-- The `SEVERITY_MAP` lookup of `recommendation_ranking_model.py`
with its `0.3` default. -/
def severity_map (intensity : String) : ℚ :=
  if intensity = "Low" then 0.3
  else if intensity = "Medium" then 0.6
  else if intensity = "High" then 0.9
  else 0.3

/-- The `profile` dict fields read by the recommendation engine. -/
structure EngineProfile where
  expense_nature : String := ""
  category : String := ""
  behavior_style : String := "balanced"
  habit_intensity : String := "Medium"
  confidence : ℚ := 0
  frequency : ℚ := 0
  spend : ℚ := 0
  weekend_ratio : ℚ := 0
  night_ratio : ℚ := 0
  consistency : ℚ := 1/2

/-- The `habit_detection` dict fields read by the recommendation engine. -/
structure EngineHabit where
  habit_detected : Bool := false
  habit_category : String := ""
  habit_intensity : String := "Low"
  confidence : ℚ := 0

/-- Model of `build_ranking_input`. -/
def build_ranking_input (hd : EngineHabit) (p : EngineProfile)
    (upstream : UpstreamOutputs) : RankingInput :=
  let intensity := hd.habit_intensity
  let intensity_score := severity_map intensity
  let confidence := clamp01 hd.confidence
  let habit_severity := clamp01 (0.65 * intensity_score + 0.35 * confidence)
  let goal_conflict := upstream.overall_conflict_score
  let goal_feasibility := clamp01 (1 - goal_conflict)
  let consistency := clamp01 p.consistency
  let night_ratio := clamp01 p.night_ratio
  let risk_awareness := clamp01 (0.7 * consistency + 0.3 * (1 - night_ratio))
  { habit_severity := habit_severity
    goal_feasibility := goal_feasibility
    risk_awareness := risk_awareness
    user_profile :=
      { behavior_style := p.behavior_style
        category := p.category
        habit_intensity := intensity
        frequency := p.frequency
        night_ratio := p.night_ratio
        weekend_ratio := p.weekend_ratio
        consistency := p.consistency }
    upstream_outputs := upstream }

/-- The `TEMPLATE_LIBRARY` of `recommendation_engine.py` (unknown keys map to
`[]`; in Python an unknown key would raise `KeyError`, but the only callers
supply keys of the fixed template set). -/
def template_library (template_key : String) : List String :=
  if template_key = "time_shift" then
    ["Plan this category earlier in the day and use a consistent purchase window.",
     "Shift purchases to a planned daytime slot to improve spending consistency."]
  else if template_key = "home_substitution" then
    ["Replace one paid convenience purchase this week with a home-prepared alternative.",
     "Try a home-first routine three days a week, then buy only what is still needed."]
  else if template_key = "bundle_plan" then
    ["Batch this category into 1-2 planned purchases per week instead of many small spends.",
     "Create a short list and buy once per cycle to reduce repeat purchases."]
  else if template_key = "low_cost_swap" then
    ["Switch to one lower-cost alternative item each cycle while keeping the same habit need.",
     "Keep the behavior but choose budget-tier options for at least half of purchases."]
  else if template_key = "cooldown_rule" then
    ["Route unplanned purchases in this category into the next scheduled spending cycle.",
     "If an item is outside your plan, re-evaluate it in the next planned review."]
  else []

/-- The `INTENSITY_MULTIPLIER` lookup with its `1.0` default. -/
def intensity_multiplier (intensity : String) : ℚ :=
  if intensity = "Low" then 0.9
  else if intensity = "Medium" then 1.0
  else if intensity = "High" then 1.15
  else 1.0

/-- Model of `_ml_or_heuristic_score`; the optional trained strategy
classifier is the parameter `st` (fed `base_risk`, `frequency`, `spend`,
`effort`, `cost_impact` like the Python feature frame). -/
def ml_or_heuristic_score (st : Option (ℚ → ℚ → ℚ → ℚ → ℚ → ℚ))
    (p : EngineProfile) (effort cost_impact : ℚ) : ℚ :=
  let confidence := p.confidence
  let frequency := p.frequency
  let spend := p.spend
  let base_risk := min 1 (0.5 * confidence + 0.3 * (frequency / 7) + 0.2 * (spend / 1000))
  match st with
  | some f => f base_risk frequency spend effort cost_impact
  | none => max 0 (min 1 (0.55 * base_risk + 0.35 * cost_impact - 0.3 * effort))

/-- Model of `_template_boost`. -/
def template_boost (template_key : String) (p : EngineProfile) : ℚ :=
  let category := lowerStr (stripStr p.category)
  let boost : ℚ := 0
  let boost := if 0.6 ≤ p.weekend_ratio ∧ template_key = "bundle_plan" then boost + 0.2 else boost
  let boost := if 0.6 ≤ p.night_ratio ∧ template_key = "time_shift" then boost + 0.18 else boost
  let boost := if 5 ≤ p.frequency ∧ template_key = "bundle_plan" then boost + 0.12 else boost
  let boost := if 2000 ≤ p.spend ∧ template_key = "low_cost_swap" then boost + 0.12 else boost
  let boost := if 0.75 ≤ p.consistency ∧ template_key = "low_cost_swap" then boost + 0.08 else boost
  if category = "dinning out" then
    boost + (if template_key = "home_substitution" then 0.22 else 0)
      + (if template_key = "time_shift" then 0.1 else 0)
  else if category = "shopping" then
    boost + (if template_key = "low_cost_swap" then 0.24 else 0)
      + (if template_key = "bundle_plan" then 0.1 else 0)
  else if category = "subscriptions" then
    boost + (if template_key = "bundle_plan" then 0.25 else 0)
      + (if template_key = "low_cost_swap" then 0.1 else 0)
  else if category = "travel" then
    boost + (if template_key = "bundle_plan" then 0.2 else 0)
      + (if template_key = "low_cost_swap" then 0.12 else 0)
  else boost

/-- Model of `_light_touch_strategy`. -/
def light_touch_strategy (p : EngineProfile) : String :=
  let category := lowerStr (stripStr p.category)
  if category = "subscriptions" then
    "Review active subscriptions monthly and remove low-value renewals."
  else if category = "travel" then
    "Set a travel spending envelope per trip and confirm bookings against that limit."
  else if 0.6 ≤ p.weekend_ratio then
    "Set a weekend budget cap for this category and track adherence weekly."
  else if 2000 ≤ p.spend then
    "Set a per-transaction budget limit and review exceptions at month-end."
  else if 3 ≤ p.frequency then
    "Use pre-planned purchase slots for this category and avoid unscheduled repeats."
  else
    "No strong behavioral pattern is currently detected; continue periodic category monitoring."

/-- The hard-coded fixed-expense row of `recommend_ranked_behaviors` (fields
absent from the Python dict - `raw_score`, `template_key`,
`dominant_factor` - keep the record defaults). -/
def fixed_expense_row : RRow :=
  { recommendation := "Keep payment dates consistent and track any recurring cost revisions."
    template_key := ""
    difficulty_level := "Easy"
    dominant_factor := ""
    raw_score := 0
    base_score := 0.9
    habit_severity := 0.2
    goal_pressure := 0.2
    risk_fit := 0.8
    profile_fit := 0.8
    urgency_signal := 0.4
    upstream_signal := 0.2
    feasibility_impact_pct := -4
    goal_success_probability_before := 84
    goal_success_probability_after := 90
    goal_timeline_reduction_months := 1.1
    score := 0.9
    score_pct := 90
    score_tier := "Critical"
    rank := 1 }

/-- The hard-coded light-touch row of `recommend_ranked_behaviors`
(same conventions as `fixed_expense_row`). -/
def light_touch_row (recommendation : String) : RRow :=
  { recommendation := recommendation
    template_key := ""
    difficulty_level := "Easy"
    dominant_factor := ""
    raw_score := 0
    base_score := 0.74
    habit_severity := 0.25
    goal_pressure := 0.2
    risk_fit := 0.75
    profile_fit := 0.75
    urgency_signal := 0.3
    upstream_signal := 0.25
    feasibility_impact_pct := -6
    goal_success_probability_before := 66
    goal_success_probability_after := 74
    goal_timeline_reduction_months := 1.6
    score := 0.74
    score_pct := 74
    score_tier := "High"
    rank := 1 }

/-- Model of `recommend_ranked_behaviors`.  `ntf` is the external TF-IDF
template ranker `rank_templates` (its `nlp_ranker.py` module fits a
scikit-learn vectorizer), `st` the optional strategy classifier, `rp` the
calibration exponent as in `rank`. -/
def recommend_ranked_behaviors (rp : ℚ → ℚ) (st : Option (ℚ → ℚ → ℚ → ℚ → ℚ → ℚ))
    (ntf : String → ℤ → List (String × ℚ)) (hd : EngineHabit) (p : EngineProfile)
    (upstream : UpstreamOutputs) (top_k : ℤ) : List RRow :=
  if p.expense_nature = "Fixed" then
    [fixed_expense_row]
  else if hd.habit_detected = false then
    [light_touch_row (light_touch_strategy p)]
  else
    let ranked_templates := ntf hd.habit_category (top_k + 2)
    let intensity_factor := intensity_multiplier p.habit_intensity
    let scored := ranked_templates.flatMap (fun tk =>
      (template_library tk.1).map (fun suggestion =>
        let effort : ℚ :=
          if tk.1 = "time_shift" ∨ tk.1 = "home_substitution" then 0.35 else 0.5
        let cost_impact := min 1 ((0.45 + tk.2) * intensity_factor)
        let mls := ml_or_heuristic_score st p effort cost_impact
        let final := 0.6 * mls + 0.4 * tk.2 + template_boost tk.1 p
        CandidateIn.record suggestion (clamp01 final) tk.1))
    let ri := build_ranking_input hd p upstream
    rank rp scored ri top_k

/-! ## Claims -/

/-- Helper fact: rounding an exact zero gives zero. -/
theorem pyRound_zero (n : ℕ) : pyRound n 0 = 0 :=
  pyRound_eq_self (m := 0) (by norm_num)

/-- C1 (counterexample): at `goal_feasibility = 0.4` (with the other two
conditions off) the seven context-adaptive weights sum to `1.05`, not the base
total `0.18+0.18+0.16+0.12+0.14+0.12+0.10 = 1`; the first redistribution adds
`0.09` but subtracts only `0.04`. -/
theorem context_weights_sum_changes :
    weightsSum (context_weights
      { habit_severity := 0.5, goal_feasibility := 0.4, risk_awareness := 0.5,
        user_profile := {}, upstream_outputs := {} }) ≠
      (0.18 + 0.18 + 0.16 + 0.12 + 0.14 + 0.12 + 0.10 : ℚ) := by
  unfold context_weights weightsSum
  norm_num

/-- C1 (amended): the base weights sum to `1`; each triggered condition adds a
fixed positive net amount to the total (goal-feasibility condition `+0.05`,
habit-severity condition `+0.03`, risk-awareness condition `+0.03`), so the
sum is unchanged only when no condition fires. -/
theorem context_weights_sum (ri : RankingInput) :
    weightsSum (context_weights ri) =
      1 + (if ri.goal_feasibility < 0.45 then 0.05 else 0)
        + (if ri.habit_severity > 0.75 then 0.03 else 0)
        + (if ri.risk_awareness < 0.4 then 0.03 else 0) := by
  unfold context_weights weightsSum
  split_ifs <;> norm_num

/-- C6: for every behavior-feature vector, every optional model artifact and
every category whose configured nature is `Fixed`, `predict` returns
`habit_detected = false`, `habit_intensity = "Low"` and `confidence = 0`. -/
theorem fixed_category_predict (model : Option (BehaviorFeatures → ℚ))
    (bf : BehaviorFeatures) (category : String)
    (h : dictGet CATEGORY_TO_NATURE (lowerStr (stripStr category)) "" = "Fixed") :
    (predict model bf category).habit_detected = false ∧
    (predict model bf category).habit_intensity = "Low" ∧
    (predict model bf category).confidence = 0 := by
  unfold predict
  rw [if_pos h]
  exact ⟨rfl, rfl, pyRound_zero 3⟩

/-- C6 witness: the category `"rent"` has `Fixed` nature, and `predict` at a
feature vector that satisfies every behavioral threshold still reports no
habit. -/
theorem fixed_category_predict_witness :
    dictGet CATEGORY_TO_NATURE (lowerStr (stripStr "rent")) "" = "Fixed" ∧
    ((predict none (⟨9, 0.9, 52, 0.9, 0.9⟩ : BehaviorFeatures) "rent").habit_detected
        = false ∧
      (predict none (⟨9, 0.9, 52, 0.9, 0.9⟩ : BehaviorFeatures) "rent").habit_intensity
        = "Low" ∧
      (predict none (⟨9, 0.9, 52, 0.9, 0.9⟩ : BehaviorFeatures) "rent").confidence
        = 0) :=
  ⟨by decide, fixed_category_predict none _ "rent" (by decide)⟩

/-- C7: with an empty goal list, `detect_conflicts` returns the canonical
no-conflict result (`conflict_detected = false`, score `0`, severity `"Low"`,
no alerts) for every habit detection, profile and context input. -/
theorem detect_conflicts_empty_goals (hd : HabitDetectionIn) (p : ProfileC)
    (ctx : ContextC) :
    (detect_conflicts hd [] p ctx).conflict_detected = false ∧
    (detect_conflicts hd [] p ctx).overall_conflict_score = 0 ∧
    (detect_conflicts hd [] p ctx).overall_severity = "Low" ∧
    (detect_conflicts hd [] p ctx).alerts = [] := by
  unfold detect_conflicts
  simp

/-- Rounding is idempotent: re-rounding an already-rounded value changes
nothing. -/
theorem pyRound_idem (n : ℕ) (x : ℚ) : pyRound n (pyRound n x) = pyRound n x := by
  apply pyRound_eq_self (m := roundHalfEven (x * 10 ^ n))
  unfold pyRound
  have hten : (10:ℚ) ^ n ≠ 0 := by positivity
  field_simp

/-- The fold of `max` dominates its initial value. -/
theorem foldl_max_init (l : List ℚ) (a : ℚ) : a ≤ l.foldl max a := by
  induction l generalizing a with
  | nil => simp
  | cons h t ih => exact le_trans (le_max_left a h) (ih (max a h))

/-- The fold of `max` dominates every list element. -/
theorem foldl_max_mem_le (l : List ℚ) (a x : ℚ) (hx : x ∈ l) : x ≤ l.foldl max a := by
  induction l generalizing a with
  | nil => cases hx
  | cons h t ih =>
    rcases List.mem_cons.mp hx with rfl | hx'
    · exact le_trans (le_max_right a x) (foldl_max_init t (max a x))
    · exact ih (max a h) hx'

/-- The fold of `max` is the initial value or a list element. -/
theorem foldl_max_mem (l : List ℚ) (a : ℚ) : l.foldl max a = a ∨ l.foldl max a ∈ l := by
  induction l generalizing a with
  | nil => left; rfl
  | cons h t ih =>
    have step : (h :: t).foldl max a = t.foldl max (max a h) := rfl
    rcases ih (max a h) with h1 | h1
    · rcases max_choice a h with he | he
      · left; rw [step, h1, he]
      · right; rw [step, h1, he]; exact List.mem_cons_self h t
    · right; rw [step]; exact List.mem_cons_of_mem h h1

theorem le_maxQ {l : List ℚ} {x : ℚ} (hx : x ∈ l) : x ≤ maxQ l := by
  cases l with
  | nil => cases hx
  | cons h t =>
    rcases List.mem_cons.mp hx with rfl | hx'
    · exact foldl_max_init t x
    · exact foldl_max_mem_le t h x hx'

theorem maxQ_mem {l : List ℚ} (hl : l ≠ []) : maxQ l ∈ l := by
  cases l with
  | nil => exact absurd rfl hl
  | cons h t =>
    rcases foldl_max_mem t h with h1 | h1
    · rw [maxQ, h1]; exact List.mem_cons_self h t
    · exact List.mem_cons_of_mem h h1

/-- The descending-threshold reading of `_severity`. -/
theorem severity_label_spec (s : ℚ) :
    (severity_label s = "Critical" ↔ 0.8 ≤ s) ∧
    (severity_label s = "High" ↔ 0.62 ≤ s ∧ s < 0.8) ∧
    (severity_label s = "Medium" ↔ 0.42 ≤ s ∧ s < 0.62) ∧
    (severity_label s = "Low" ↔ s < 0.42) := by
  unfold severity_label
  split_ifs with h1 h2 h3 <;>
    refine ⟨?_, ?_, ?_, ?_⟩ <;> constructor <;> intro h <;>
    first
      | rfl
      | (exact absurd h (by decide))
      | (simp only [not_le, not_lt] at *
         first
           | linarith
           | (exact ⟨by linarith, by linarith⟩))

/-- A severity label is `Medium` or stronger exactly when the score reaches
`0.42`. -/
theorem severity_label_ge42 (s : ℚ) :
    (severity_label s = "Critical" ∨ severity_label s = "High"
      ∨ severity_label s = "Medium") ↔ 0.42 ≤ s := by
  obtain ⟨hc, hh, hm, _⟩ := severity_label_spec s
  constructor
  · rintro (h | h | h)
    · linarith [hc.mp h]
    · linarith [(hh.mp h).1]
    · exact (hm.mp h).1
  · intro h
    rcases lt_or_le s 0.62 with h1 | h1
    · exact Or.inr (Or.inr (hm.mpr ⟨h, h1⟩))
    · rcases lt_or_le s 0.8 with h2 | h2
      · exact Or.inr (Or.inl (hh.mpr ⟨h1, h2⟩))
      · exact Or.inl (hc.mpr h2)

/-- The comparator used to sort conflict rows is transitive. -/
theorem conflict_le_trans :
    ∀ a b c : GoalConflictRow,
      (fun a b => decide (b.conflict_score ≤ a.conflict_score)) a b = true →
      (fun a b => decide (b.conflict_score ≤ a.conflict_score)) b c = true →
      (fun a b => decide (b.conflict_score ≤ a.conflict_score)) a c = true := by
  intro a b c hab hbc
  simp only [decide_eq_true_eq] at *
  exact le_trans hbc hab

/-- The comparator used to sort conflict rows is total. -/
theorem conflict_le_total :
    ∀ a b : GoalConflictRow,
      ((fun a b => decide (b.conflict_score ≤ a.conflict_score)) a b
        || (fun a b => decide (b.conflict_score ≤ a.conflict_score)) b a) = true := by
  intro a b
  simp only [Bool.or_eq_true, decide_eq_true_eq]
  exact (le_total b.conflict_score a.conflict_score)

/-- C5: for a non-empty goal list, `detect_conflicts` (a) labels each goal via
the descending severity-threshold lookup on its conflict score, (b) returns
the per-goal rows as a permutation of the scored goals sorted non-increasingly
by `conflict_score`, (c) reports the maximum per-goal conflict score as
`overall_conflict_score`, (d) flags `conflict_detected` exactly when that
maximum reaches the `Medium` threshold `0.42`, and (e) returns as `alerts` the
first at-most-5 non-`Low` rows in the same descending order. -/
theorem detect_conflicts_aggregate (hd : HabitDetectionIn) (p : ProfileC)
    (ctx : ContextC) (goals : List GoalDict) (hne : goals ≠ []) :
    (∀ g : GoalDict, (goal_conflict_row hd p ctx g).severity
        = severity_label (goal_conflict_score hd p ctx g)) ∧
    (∀ s : ℚ, (severity_label s = "Critical" ↔ 0.8 ≤ s) ∧
      (severity_label s = "High" ↔ 0.62 ≤ s ∧ s < 0.8) ∧
      (severity_label s = "Medium" ↔ 0.42 ≤ s ∧ s < 0.62) ∧
      (severity_label s = "Low" ↔ s < 0.42)) ∧
    (detect_conflicts hd goals p ctx).goal_conflicts.Perm
      (goals.map (goal_conflict_row hd p ctx)) ∧
    (detect_conflicts hd goals p ctx).goal_conflicts.Pairwise
      (fun a b => b.conflict_score ≤ a.conflict_score) ∧
    (∀ r ∈ (detect_conflicts hd goals p ctx).goal_conflicts,
      r.conflict_score ≤ (detect_conflicts hd goals p ctx).overall_conflict_score) ∧
    (∃ r ∈ (detect_conflicts hd goals p ctx).goal_conflicts,
      (detect_conflicts hd goals p ctx).overall_conflict_score = r.conflict_score) ∧
    ((detect_conflicts hd goals p ctx).conflict_detected = true ↔
      0.42 ≤ (detect_conflicts hd goals p ctx).overall_conflict_score) ∧
    (detect_conflicts hd goals p ctx).alerts =
      (((detect_conflicts hd goals p ctx).goal_conflicts.filter (fun r =>
          r.severity = "Critical" || r.severity = "High"
            || r.severity = "Medium")).take 5).map
        (fun r => { goal_name := r.goal_name, severity := r.severity : AlertRow }) ∧
    (detect_conflicts hd goals p ctx).alerts.length ≤ 5 ∧
    (∀ a ∈ (detect_conflicts hd goals p ctx).alerts, a.severity ≠ "Low") := by
  have hne' : ¬ (goals.isEmpty = true) := by
    simpa [List.isEmpty_iff] using hne
  have e : detect_conflicts hd goals p ctx =
      { conflict_detected :=
          (severity_label (maxQ (((goals.map (goal_conflict_row hd p ctx)).mergeSort
              (fun a b => decide (b.conflict_score ≤ a.conflict_score))).map
                (fun r => r.conflict_score))) = "Critical"
            || severity_label (maxQ (((goals.map (goal_conflict_row hd p ctx)).mergeSort
              (fun a b => decide (b.conflict_score ≤ a.conflict_score))).map
                (fun r => r.conflict_score))) = "High"
            || severity_label (maxQ (((goals.map (goal_conflict_row hd p ctx)).mergeSort
              (fun a b => decide (b.conflict_score ≤ a.conflict_score))).map
                (fun r => r.conflict_score))) = "Medium")
        overall_conflict_score :=
          pyRound 3 (maxQ (((goals.map (goal_conflict_row hd p ctx)).mergeSort
            (fun a b => decide (b.conflict_score ≤ a.conflict_score))).map
              (fun r => r.conflict_score)))
        overall_severity :=
          severity_label (maxQ (((goals.map (goal_conflict_row hd p ctx)).mergeSort
            (fun a b => decide (b.conflict_score ≤ a.conflict_score))).map
              (fun r => r.conflict_score)))
        alerts :=
          ((((goals.map (goal_conflict_row hd p ctx)).mergeSort
              (fun a b => decide (b.conflict_score ≤ a.conflict_score))).filter (fun r =>
                r.severity = "Critical" || r.severity = "High"
                  || r.severity = "Medium")).take 5).map
            (fun r => { goal_name := r.goal_name, severity := r.severity : AlertRow })
        goal_conflicts :=
          (goals.map (goal_conflict_row hd p ctx)).mergeSort
            (fun a b => decide (b.conflict_score ≤ a.conflict_score)) } := by
    unfold detect_conflicts
    rw [if_neg hne']
  set rows := goals.map (goal_conflict_row hd p ctx) with hrows
  set sorted := rows.mergeSort (fun a b => decide (b.conflict_score ≤ a.conflict_score))
    with hsorted
  have hperm : sorted.Perm rows := List.mergeSort_perm rows _
  have hsne : sorted ≠ [] := by
    intro hnil
    have : rows ≠ [] := by
      rw [hrows]
      simpa using hne
    have hlen := hperm.length_eq
    rw [hnil] at hlen
    exact this (List.eq_nil_of_length_eq_zero hlen.symm)
  have hmapne : sorted.map (fun r => r.conflict_score) ≠ [] := by
    simpa using hsne
  -- the maximum of the stored (already-rounded) scores is itself rounded
  have hov_mem : maxQ (sorted.map (fun r => r.conflict_score)) ∈
      sorted.map (fun r => r.conflict_score) := maxQ_mem hmapne
  obtain ⟨r0, hr0_mem, hr0_eq⟩ := List.mem_map.mp hov_mem
  have hr0_rows : r0 ∈ rows := hperm.mem_iff.mp hr0_mem
  obtain ⟨g0, _, hg0⟩ := List.mem_map.mp hr0_rows
  have hr0_round : pyRound 3 r0.conflict_score = r0.conflict_score := by
    rw [← hg0]
    exact pyRound_idem 3 _
  have hov_round : pyRound 3 (maxQ (sorted.map (fun r => r.conflict_score)))
      = maxQ (sorted.map (fun r => r.conflict_score)) := by
    rw [← hr0_eq, hr0_round]
  refine ⟨fun g => rfl, severity_label_spec, ?_, ?_, ?_, ?_, ?_, ?_, ?_, ?_⟩
  · rw [e]
    exact hperm
  · rw [e]
    exact (List.sorted_mergeSort conflict_le_trans conflict_le_total rows).imp
      (fun h => of_decide_eq_true h)
  · rw [e]
    intro r hr
    have : r.conflict_score ∈ sorted.map (fun r => r.conflict_score) :=
      List.mem_map_of_mem _ hr
    calc r.conflict_score ≤ maxQ (sorted.map (fun r => r.conflict_score)) := le_maxQ this
    _ = pyRound 3 (maxQ (sorted.map (fun r => r.conflict_score))) := hov_round.symm
  · rw [e]
    exact ⟨r0, hr0_mem, by rw [hov_round, ← hr0_eq]⟩
  · rw [e]
    simp only [Bool.or_eq_true, decide_eq_true_eq]
    rw [hov_round, or_assoc]
    exact severity_label_ge42 _
  · rw [e]
  · rw [e]
    simp only [List.length_map, List.length_take]
    omega
  · rw [e]
    intro a ha
    obtain ⟨r, hr_take, har⟩ := List.mem_map.mp ha
    have hr_filt := (List.take_sublist 5 _).subset hr_take
    have hsev := (List.mem_filter.mp hr_filt).2
    simp only [Bool.or_eq_true, decide_eq_true_eq] at hsev
    rw [← har]
    rcases hsev with (h | h) | h <;> simp [h]

/-- C5 witness: the aggregate theorem instantiated at a concrete one-goal
input, with the non-emptiness hypothesis discharged. -/
theorem detect_conflicts_aggregate_witness :
    ([⟨"Fund", 1000, 100, 10, 3, [], "General"⟩] : List GoalDict) ≠ [] ∧
    ((∀ g : GoalDict, (goal_conflict_row (⟨0.5, true, "High"⟩ : HabitDetectionIn)
        (⟨"shopping", 1000, 3, 0.5, 0.2, 0.5⟩ : ProfileC) (⟨500⟩ : ContextC) g).severity
        = severity_label (goal_conflict_score (⟨0.5, true, "High"⟩ : HabitDetectionIn)
          (⟨"shopping", 1000, 3, 0.5, 0.2, 0.5⟩ : ProfileC) (⟨500⟩ : ContextC) g)) ∧
    (∀ s : ℚ, (severity_label s = "Critical" ↔ 0.8 ≤ s) ∧
      (severity_label s = "High" ↔ 0.62 ≤ s ∧ s < 0.8) ∧
      (severity_label s = "Medium" ↔ 0.42 ≤ s ∧ s < 0.62) ∧
      (severity_label s = "Low" ↔ s < 0.42)) ∧
    (detect_conflicts (⟨0.5, true, "High"⟩ : HabitDetectionIn) ([⟨"Fund", 1000, 100, 10, 3, [], "General"⟩] : List GoalDict)
        (⟨"shopping", 1000, 3, 0.5, 0.2, 0.5⟩ : ProfileC) (⟨500⟩ : ContextC)).goal_conflicts.Perm
      (([⟨"Fund", 1000, 100, 10, 3, [], "General"⟩] : List GoalDict).map (goal_conflict_row (⟨0.5, true, "High"⟩ : HabitDetectionIn)
        (⟨"shopping", 1000, 3, 0.5, 0.2, 0.5⟩ : ProfileC) (⟨500⟩ : ContextC))) ∧
    (detect_conflicts (⟨0.5, true, "High"⟩ : HabitDetectionIn) ([⟨"Fund", 1000, 100, 10, 3, [], "General"⟩] : List GoalDict)
        (⟨"shopping", 1000, 3, 0.5, 0.2, 0.5⟩ : ProfileC) (⟨500⟩ : ContextC)).goal_conflicts.Pairwise
      (fun a b => b.conflict_score ≤ a.conflict_score) ∧
    (∀ r ∈ (detect_conflicts (⟨0.5, true, "High"⟩ : HabitDetectionIn) ([⟨"Fund", 1000, 100, 10, 3, [], "General"⟩] : List GoalDict)
        (⟨"shopping", 1000, 3, 0.5, 0.2, 0.5⟩ : ProfileC) (⟨500⟩ : ContextC)).goal_conflicts,
      r.conflict_score ≤ (detect_conflicts (⟨0.5, true, "High"⟩ : HabitDetectionIn) ([⟨"Fund", 1000, 100, 10, 3, [], "General"⟩] : List GoalDict)
        (⟨"shopping", 1000, 3, 0.5, 0.2, 0.5⟩ : ProfileC) (⟨500⟩ : ContextC)).overall_conflict_score) ∧
    (∃ r ∈ (detect_conflicts (⟨0.5, true, "High"⟩ : HabitDetectionIn) ([⟨"Fund", 1000, 100, 10, 3, [], "General"⟩] : List GoalDict)
        (⟨"shopping", 1000, 3, 0.5, 0.2, 0.5⟩ : ProfileC) (⟨500⟩ : ContextC)).goal_conflicts,
      (detect_conflicts (⟨0.5, true, "High"⟩ : HabitDetectionIn) ([⟨"Fund", 1000, 100, 10, 3, [], "General"⟩] : List GoalDict)
        (⟨"shopping", 1000, 3, 0.5, 0.2, 0.5⟩ : ProfileC) (⟨500⟩ : ContextC)).overall_conflict_score = r.conflict_score) ∧
    ((detect_conflicts (⟨0.5, true, "High"⟩ : HabitDetectionIn) ([⟨"Fund", 1000, 100, 10, 3, [], "General"⟩] : List GoalDict)
        (⟨"shopping", 1000, 3, 0.5, 0.2, 0.5⟩ : ProfileC) (⟨500⟩ : ContextC)).conflict_detected = true ↔
      0.42 ≤ (detect_conflicts (⟨0.5, true, "High"⟩ : HabitDetectionIn) ([⟨"Fund", 1000, 100, 10, 3, [], "General"⟩] : List GoalDict)
        (⟨"shopping", 1000, 3, 0.5, 0.2, 0.5⟩ : ProfileC) (⟨500⟩ : ContextC)).overall_conflict_score) ∧
    (detect_conflicts (⟨0.5, true, "High"⟩ : HabitDetectionIn) ([⟨"Fund", 1000, 100, 10, 3, [], "General"⟩] : List GoalDict)
        (⟨"shopping", 1000, 3, 0.5, 0.2, 0.5⟩ : ProfileC) (⟨500⟩ : ContextC)).alerts =
      ((((detect_conflicts (⟨0.5, true, "High"⟩ : HabitDetectionIn) ([⟨"Fund", 1000, 100, 10, 3, [], "General"⟩] : List GoalDict)
        (⟨"shopping", 1000, 3, 0.5, 0.2, 0.5⟩ : ProfileC) (⟨500⟩ : ContextC)).goal_conflicts.filter (fun r =>
          r.severity = "Critical" || r.severity = "High"
            || r.severity = "Medium")).take 5).map
        (fun r => { goal_name := r.goal_name, severity := r.severity : AlertRow })) ∧
    (detect_conflicts (⟨0.5, true, "High"⟩ : HabitDetectionIn) ([⟨"Fund", 1000, 100, 10, 3, [], "General"⟩] : List GoalDict)
        (⟨"shopping", 1000, 3, 0.5, 0.2, 0.5⟩ : ProfileC) (⟨500⟩ : ContextC)).alerts.length ≤ 5 ∧
    (∀ a ∈ (detect_conflicts (⟨0.5, true, "High"⟩ : HabitDetectionIn) ([⟨"Fund", 1000, 100, 10, 3, [], "General"⟩] : List GoalDict)
        (⟨"shopping", 1000, 3, 0.5, 0.2, 0.5⟩ : ProfileC) (⟨500⟩ : ContextC)).alerts, a.severity ≠ "Low")) :=
  ⟨by simp, detect_conflicts_aggregate _ _ _ _ (by simp)⟩

/-- Helper: the three aggregate fields of `detect_conflicts` on a one-goal
list, expressed through the single goal's conflict score. -/
theorem dc_single_fields (hd : HabitDetectionIn) (p : ProfileC) (ctx : ContextC)
    (g : GoalDict) :
    (detect_conflicts hd [g] p ctx).overall_conflict_score
        = pyRound 3 (goal_conflict_score hd p ctx g) ∧
    (detect_conflicts hd [g] p ctx).overall_severity
        = severity_label (pyRound 3 (goal_conflict_score hd p ctx g)) ∧
    (detect_conflicts hd [g] p ctx).conflict_detected
        = (severity_label (pyRound 3 (goal_conflict_score hd p ctx g)) = "Critical"
          || severity_label (pyRound 3 (goal_conflict_score hd p ctx g)) = "High"
          || severity_label (pyRound 3 (goal_conflict_score hd p ctx g)) = "Medium") := by
  unfold detect_conflicts
  simp [List.mergeSort_singleton, maxQ, goal_conflict_row, pyRound_idem]


theorem clamp01_eq_self {x : ℚ} (h0 : 0 ≤ x) (h1 : x ≤ 1) : clamp01 x = x := by
  unfold clamp01
  rw [max_eq_left h0, min_eq_left h1]

/-- Helper: the Scenario-A conflict score is at least `0.8` for any habit
confidence between `0.8` and `1`. -/
theorem scenario_a_score_ge (c : ℚ) (h1 : (0.8 : ℚ) ≤ c) (h2 : c ≤ 1) :
    (0.8 : ℚ) ≤ goal_conflict_score ⟨c, true, "High"⟩
      (⟨"shopping", 3200, 6, 0.7, 0.5, 0.8⟩ : ProfileC) (⟨900⟩ : ContextC)
      ⟨"Emergency Fund", 12000, 1000, 8, 5, ["shopping"], "Emergency Fund"⟩ := by
  have hshop : lowerStr (stripStr "shopping") = "shopping" := by decide
  have hEF : stripStr "Emergency Fund" = "Emergency Fund" := by decide
  have hng : normalize_goal ⟨"Emergency Fund", 12000, 1000, 8, 5, ["shopping"], "Emergency Fund"⟩
      = ⟨"Emergency Fund", 12000, 1000, 8, 5, ["shopping"], "Emergency Fund"⟩ := by
    unfold normalize_goal
    dsimp only
    rw [hEF]
    rw [if_neg (by decide : ¬ ("Emergency Fund" = "")),
      if_neg (by decide : ¬ ("Emergency Fund" = ""))]
    simp only [List.map, hshop]
    norm_num [max_def, min_def]
  have his : intensity_score_of "High" = 0.9 := by
    unfold intensity_score_of
    rw [if_neg (by decide : ¬ ("High" = "Low")), if_neg (by decide : ¬ ("High" = "Medium")),
      if_pos rfl]
  have hbp : behavior_pressure ⟨c, true, "High"⟩
      (⟨"shopping", 3200, 6, 0.7, 0.5, 0.8⟩ : ProfileC) = 0.28 * c + 2279 / 3500 := by
    have e1 : min (max (3200 : ℚ) 0 / 4000) 1 = 0.8 := by norm_num [min_def, max_def]
    have e2 : min (max (6 : ℚ) 0 / 7) 1 = 6 / 7 := by norm_num [min_def, max_def]
    have e3 : clamp01 (0.7 : ℚ) = 0.7 := by norm_num [clamp01, min_def, max_def]
    have e4 : clamp01 (0.5 : ℚ) = 0.5 := by norm_num [clamp01, min_def, max_def]
    have e5 : clamp01 (0.8 : ℚ) = 0.8 := by norm_num [clamp01, min_def, max_def]
    unfold behavior_pressure
    dsimp only
    simp only [if_true]
    rw [his, e1, e2, e3, e4, e5]
    rw [clamp01_eq_self (by linarith) (by linarith)]
    ring
  have hgp : goal_pressure_of
      ⟨"Emergency Fund", 12000, 1000, 8, 5, ["shopping"], "Emergency Fund"⟩ 900 = 0.925 := by
    unfold goal_pressure_of
    norm_num [clamp01, min_def, max_def]
  have hpen : category_conflict_penalty
      ⟨"Emergency Fund", 12000, 1000, 8, 5, ["shopping"], "Emergency Fund"⟩ "shopping"
      = 0.53 := by
    unfold category_conflict_penalty goal_category_conflict_weight
    dsimp only
    rw [if_pos rfl]
    rw [if_neg (by decide : ¬ ("shopping" = "dinning out")), if_pos rfl]
    rw [if_pos (by simp : "shopping" ∈ ["shopping"])]
    norm_num [clamp01, min_def, max_def]
  have halign : alignment_discount
      ⟨"Emergency Fund", 12000, 1000, 8, 5, ["shopping"], "Emergency Fund"⟩ "shopping" = 0 := by
    unfold alignment_discount
    rw [if_neg (by decide : ¬ ("shopping" = "travel")),
      if_neg (by decide : ¬ ("shopping" = "medical")),
      if_neg (by decide : ¬ ("shopping" = "loan payments"))]
  unfold goal_conflict_score
  dsimp only
  rw [hshop, hng, hbp]
  rw [show max (900 : ℚ) 0 = 900 from max_eq_left (by norm_num)]
  rw [hgp, hpen, halign]
  rw [clamp01_eq_self (by linarith) (by linarith)]
  linarith

/-- C3: Scenario A.  With features `frequency 6`, `consistency 0.8`,
`spend 3200`, `weekend 0.7`, `night 0.5` and any `weeks_active`, category
`"shopping"`, the Emergency-Fund goal (target 12000, current 1000, timeline 8,
priority 5, protected `["shopping"]`) and monthly capacity 900, running the
heuristic-path habit detector (no model artifact) and then `detect_conflicts`
yields a detected conflict, overall severity in `{High, Critical}`, and an
overall conflict score of at least `0.62`. -/
theorem scenario_a (w : ℚ) :
    (detect_conflicts
      ⟨(predict none (⟨6, 0.8, w, 0.7, 0.5⟩ : BehaviorFeatures) "shopping").confidence,
        (predict none (⟨6, 0.8, w, 0.7, 0.5⟩ : BehaviorFeatures) "shopping").habit_detected,
        (predict none (⟨6, 0.8, w, 0.7, 0.5⟩ : BehaviorFeatures) "shopping").habit_intensity⟩
      [⟨"Emergency Fund", 12000, 1000, 8, 5, ["shopping"], "Emergency Fund"⟩]
      (⟨"shopping", 3200, 6, 0.7, 0.5, 0.8⟩ : ProfileC)
      (⟨900⟩ : ContextC)).conflict_detected = true ∧
    ((detect_conflicts
      ⟨(predict none (⟨6, 0.8, w, 0.7, 0.5⟩ : BehaviorFeatures) "shopping").confidence,
        (predict none (⟨6, 0.8, w, 0.7, 0.5⟩ : BehaviorFeatures) "shopping").habit_detected,
        (predict none (⟨6, 0.8, w, 0.7, 0.5⟩ : BehaviorFeatures) "shopping").habit_intensity⟩
      [⟨"Emergency Fund", 12000, 1000, 8, 5, ["shopping"], "Emergency Fund"⟩]
      (⟨"shopping", 3200, 6, 0.7, 0.5, 0.8⟩ : ProfileC)
      (⟨900⟩ : ContextC)).overall_severity = "High" ∨
     (detect_conflicts
      ⟨(predict none (⟨6, 0.8, w, 0.7, 0.5⟩ : BehaviorFeatures) "shopping").confidence,
        (predict none (⟨6, 0.8, w, 0.7, 0.5⟩ : BehaviorFeatures) "shopping").habit_detected,
        (predict none (⟨6, 0.8, w, 0.7, 0.5⟩ : BehaviorFeatures) "shopping").habit_intensity⟩
      [⟨"Emergency Fund", 12000, 1000, 8, 5, ["shopping"], "Emergency Fund"⟩]
      (⟨"shopping", 3200, 6, 0.7, 0.5, 0.8⟩ : ProfileC)
      (⟨900⟩ : ContextC)).overall_severity = "Critical") ∧
    (0.62 : ℚ) ≤ (detect_conflicts
      ⟨(predict none (⟨6, 0.8, w, 0.7, 0.5⟩ : BehaviorFeatures) "shopping").confidence,
        (predict none (⟨6, 0.8, w, 0.7, 0.5⟩ : BehaviorFeatures) "shopping").habit_detected,
        (predict none (⟨6, 0.8, w, 0.7, 0.5⟩ : BehaviorFeatures) "shopping").habit_intensity⟩
      [⟨"Emergency Fund", 12000, 1000, 8, 5, ["shopping"], "Emergency Fund"⟩]
      (⟨"shopping", 3200, 6, 0.7, 0.5, 0.8⟩ : ProfileC)
      (⟨900⟩ : ContextC)).overall_conflict_score := by
  have hnat : dictGet CATEGORY_TO_NATURE (lowerStr (stripStr "shopping")) ""
      = "Discretionary" := by decide
  have key : ∀ c : ℚ, (0.8 : ℚ) ≤ c → c ≤ 1 →
      (detect_conflicts ⟨c, true, "High"⟩
        [⟨"Emergency Fund", 12000, 1000, 8, 5, ["shopping"], "Emergency Fund"⟩]
        (⟨"shopping", 3200, 6, 0.7, 0.5, 0.8⟩ : ProfileC)
        (⟨900⟩ : ContextC)).conflict_detected = true ∧
      ((detect_conflicts ⟨c, true, "High"⟩
        [⟨"Emergency Fund", 12000, 1000, 8, 5, ["shopping"], "Emergency Fund"⟩]
        (⟨"shopping", 3200, 6, 0.7, 0.5, 0.8⟩ : ProfileC)
        (⟨900⟩ : ContextC)).overall_severity = "High" ∨
       (detect_conflicts ⟨c, true, "High"⟩
        [⟨"Emergency Fund", 12000, 1000, 8, 5, ["shopping"], "Emergency Fund"⟩]
        (⟨"shopping", 3200, 6, 0.7, 0.5, 0.8⟩ : ProfileC)
        (⟨900⟩ : ContextC)).overall_severity = "Critical") ∧
      (0.62 : ℚ) ≤ (detect_conflicts ⟨c, true, "High"⟩
        [⟨"Emergency Fund", 12000, 1000, 8, 5, ["shopping"], "Emergency Fund"⟩]
        (⟨"shopping", 3200, 6, 0.7, 0.5, 0.8⟩ : ProfileC)
        (⟨900⟩ : ContextC)).overall_conflict_score := by
    intro c hc1 hc2
    obtain ⟨ho, hsv, hcd⟩ := dc_single_fields ⟨c, true, "High"⟩
      (⟨"shopping", 3200, 6, 0.7, 0.5, 0.8⟩ : ProfileC) (⟨900⟩ : ContextC)
      ⟨"Emergency Fund", 12000, 1000, 8, 5, ["shopping"], "Emergency Fund"⟩
    have hs_ge := scenario_a_score_ge c hc1 hc2
    have h800 : ((800 : ℤ) : ℚ) ≤ goal_conflict_score ⟨c, true, "High"⟩
        (⟨"shopping", 3200, 6, 0.7, 0.5, 0.8⟩ : ProfileC) (⟨900⟩ : ContextC)
        ⟨"Emergency Fund", 12000, 1000, 8, 5, ["shopping"], "Emergency Fund"⟩ * 10 ^ 3 := by
      push_cast
      nlinarith [hs_ge]
    have hpr : (0.8 : ℚ) ≤ pyRound 3 (goal_conflict_score ⟨c, true, "High"⟩
        (⟨"shopping", 3200, 6, 0.7, 0.5, 0.8⟩ : ProfileC) (⟨900⟩ : ContextC)
        ⟨"Emergency Fund", 12000, 1000, 8, 5, ["shopping"], "Emergency Fund"⟩) := by
      have := pyRound_ge h800
      norm_num at this
      linarith
    have hsev : severity_label (pyRound 3 (goal_conflict_score ⟨c, true, "High"⟩
        (⟨"shopping", 3200, 6, 0.7, 0.5, 0.8⟩ : ProfileC) (⟨900⟩ : ContextC)
        ⟨"Emergency Fund", 12000, 1000, 8, 5, ["shopping"], "Emergency Fund"⟩)) = "Critical" := by
      unfold severity_label
      rw [if_pos hpr]
    refine ⟨?_, Or.inr ?_, ?_⟩
    · rw [hcd, hsev]
      simp
    · rw [hsv, hsev]
    · rw [ho]
      linarith
  rcases le_or_lt (8 : ℚ) w with hw | hw
  · have hrule : rule_score (⟨6, 0.8, w, 0.7, 0.5⟩ : BehaviorFeatures) = 1 := by
      unfold rule_score
      dsimp only
      rw [if_pos (by norm_num : (4 : ℚ) ≤ 6), if_pos (by norm_num : (0.6 : ℚ) ≤ 0.8),
        if_pos hw, if_pos (by norm_num : (0.55 : ℚ) ≤ 0.7),
        if_pos (by norm_num : (0.45 : ℚ) ≤ 0.5)]
      norm_num [clamp01, min_def, max_def]
    have hp1 : pyRound 3 1 = 1 := pyRound_eq_self (m := 1000) (by norm_num)
    have hconf : (predict none (⟨6, 0.8, w, 0.7, 0.5⟩ : BehaviorFeatures) "shopping").confidence
        = 1 := by
      unfold predict
      dsimp only
      rw [hnat, if_neg (by decide : ¬ ("Discretionary" = "Fixed"))]
      dsimp only
      simp only [ml_score]
      rw [hrule]
      exact hp1
    have hdet : (predict none (⟨6, 0.8, w, 0.7, 0.5⟩ : BehaviorFeatures) "shopping").habit_detected
        = true := by
      unfold predict
      dsimp only
      rw [hnat, if_neg (by decide : ¬ ("Discretionary" = "Fixed"))]
      dsimp only
      simp only [ml_score, decide_eq_true_eq]
      rw [hrule]
      norm_num
    have hint : (predict none
        (⟨6, 0.8, w, 0.7, 0.5⟩ : BehaviorFeatures) "shopping").habit_intensity = "High" := by
      unfold predict
      dsimp only
      rw [hnat, if_neg (by decide : ¬ ("Discretionary" = "Fixed"))]
      dsimp only
      simp only [ml_score]
      rw [hrule]
      unfold habit_intensity_label
      rw [if_pos (by norm_num : (0.75 : ℚ) ≤ 1)]
    rw [hconf, hdet, hint]
    exact key 1 (by norm_num) (by norm_num)
  · have hw8 : ¬ (8 : ℚ) ≤ w := not_le.mpr hw
    have hrule : rule_score (⟨6, 0.8, w, 0.7, 0.5⟩ : BehaviorFeatures) = 0.8 := by
      unfold rule_score
      dsimp only
      rw [if_pos (by norm_num : (4 : ℚ) ≤ 6), if_pos (by norm_num : (0.6 : ℚ) ≤ 0.8),
        if_neg hw8, if_pos (by norm_num : (0.55 : ℚ) ≤ 0.7),
        if_pos (by norm_num : (0.45 : ℚ) ≤ 0.5)]
      norm_num [clamp01, min_def, max_def]
    have hp08 : pyRound 3 0.8 = 0.8 := pyRound_eq_self (m := 800) (by norm_num)
    have hconf : (predict none (⟨6, 0.8, w, 0.7, 0.5⟩ : BehaviorFeatures) "shopping").confidence
        = 0.8 := by
      unfold predict
      dsimp only
      rw [hnat, if_neg (by decide : ¬ ("Discretionary" = "Fixed"))]
      dsimp only
      simp only [ml_score]
      rw [hrule]
      exact hp08
    have hdet : (predict none (⟨6, 0.8, w, 0.7, 0.5⟩ : BehaviorFeatures) "shopping").habit_detected
        = true := by
      unfold predict
      dsimp only
      rw [hnat, if_neg (by decide : ¬ ("Discretionary" = "Fixed"))]
      dsimp only
      simp only [ml_score, decide_eq_true_eq]
      rw [hrule]
      norm_num
    have hint : (predict none
        (⟨6, 0.8, w, 0.7, 0.5⟩ : BehaviorFeatures) "shopping").habit_intensity = "High" := by
      unfold predict
      dsimp only
      rw [hnat, if_neg (by decide : ¬ ("Discretionary" = "Fixed"))]
      dsimp only
      simp only [ml_score]
      rw [hrule]
      unfold habit_intensity_label
      rw [if_pos (by norm_num : (0.75 : ℚ) ≤ 0.8)]
    rw [hconf, hdet, hint]
    exact key 0.8 (by norm_num) (by norm_num)

/-! ### Structural lemmas about the ranking stage -/

theorem foldl_min_init (l : List ℚ) (a : ℚ) : l.foldl min a ≤ a := by
  induction l generalizing a with
  | nil => simp
  | cons h t ih => exact le_trans (ih (min a h)) (min_le_left a h)

theorem foldl_min_mem_le (l : List ℚ) (a x : ℚ) (hx : x ∈ l) : l.foldl min a ≤ x := by
  induction l generalizing a with
  | nil => cases hx
  | cons h t ih =>
    rcases List.mem_cons.mp hx with rfl | hx'
    · exact le_trans (foldl_min_init t (min a x)) (min_le_right a x)
    · exact ih (min a h) hx'

theorem minQ_le_mem {l : List ℚ} {x : ℚ} (d : ℚ) (hx : x ∈ l) : minQ d l ≤ x := by
  cases l with
  | nil => cases hx
  | cons h t =>
    rcases List.mem_cons.mp hx with rfl | hx'
    · exact foldl_min_init t x
    · exact foldl_min_mem_le t h x hx'

theorem foldl_min_mem (l : List ℚ) (a : ℚ) : l.foldl min a = a ∨ l.foldl min a ∈ l := by
  induction l generalizing a with
  | nil => left; rfl
  | cons h t ih =>
    have step : (h :: t).foldl min a = t.foldl min (min a h) := rfl
    rcases ih (min a h) with h1 | h1
    · rcases min_choice a h with he | he
      · left; rw [step, h1, he]
      · right; rw [step, h1, he]; exact List.mem_cons_self h t
    · right; rw [step]; exact List.mem_cons_of_mem h h1

theorem minQ_mem {l : List ℚ} (d : ℚ) (hl : l ≠ []) : minQ d l ∈ l := by
  cases l with
  | nil => exact absurd rfl hl
  | cons h t =>
    rcases foldl_min_mem t h with h1 | h1
    · rw [minQ, h1]; exact List.mem_cons_self h t
    · exact List.mem_cons_of_mem h h1

/-- The comparator used to sort calibrated rows is transitive. -/
theorem rrow_le_trans :
    ∀ a b c : RRow,
      (fun a b => decide (b.score ≤ a.score)) a b = true →
      (fun a b => decide (b.score ≤ a.score)) b c = true →
      (fun a b => decide (b.score ≤ a.score)) a c = true := by
  intro a b c hab hbc
  simp only [decide_eq_true_eq] at *
  exact le_trans hbc hab

/-- The comparator used to sort calibrated rows is total. -/
theorem rrow_le_total :
    ∀ a b : RRow,
      ((fun a b => decide (b.score ≤ a.score)) a b
        || (fun a b => decide (b.score ≤ a.score)) b a) = true := by
  intro a b
  simp only [Bool.or_eq_true, decide_eq_true_eq]
  exact le_total b.score a.score

theorem assign_ranks_length (l : List RRow) (n : ℕ) :
    (assign_ranks n l).length = l.length := by
  induction l generalizing n with
  | nil => rfl
  | cons h t ih => simp [assign_ranks, ih]

theorem assign_ranks_map_rank (l : List RRow) (n : ℕ) :
    (assign_ranks n l).map (fun r => r.rank) = List.range' n l.length := by
  induction l generalizing n with
  | nil => rfl
  | cons h t ih => simp [assign_ranks, List.range'_succ, ih]

theorem assign_ranks_map_score (l : List RRow) (n : ℕ) :
    (assign_ranks n l).map (fun r => r.score) = l.map (fun r => r.score) := by
  induction l generalizing n with
  | nil => rfl
  | cons h t ih => simp [assign_ranks, ih]

theorem assign_ranks_mem {l : List RRow} {n : ℕ} {row : RRow}
    (h : row ∈ assign_ranks n l) : ∃ a ∈ l, ∃ m : ℕ, row = { a with rank := m } := by
  induction l generalizing n with
  | nil => cases h
  | cons hd t ih =>
    rcases List.mem_cons.mp h with h1 | h1
    · exact ⟨hd, List.mem_cons_self hd t, n, h1⟩
    · obtain ⟨a, ha, m, hm⟩ := ih h1
      exact ⟨a, List.mem_cons_of_mem hd ha, m, hm⟩

/-- Every output row of `rank` is (up to its assigned `rank` field) a row of
the calibrated candidate set. -/
theorem mem_rank {rp : ℚ → ℚ} {candidates : List CandidateIn} {ri : RankingInput}
    {top_k : ℤ} {row : RRow} (h : row ∈ rank rp candidates ri top_k) :
    ∃ a ∈ calibrate_scores rp ((candidates.map normalize_candidate).map
        (score_row ri (context_weights ri)
          (max 20 (min 95 (pyRound 1 (clamp01 ri.goal_feasibility * 100)))))),
      ∃ m : ℕ, row = { a with rank := m } := by
  unfold rank at h
  dsimp only at h
  obtain ⟨a, ha, m, hm⟩ := assign_ranks_mem h
  refine ⟨a, ?_, m, hm⟩
  exact List.mem_mergeSort.mp ((List.take_sublist _ _).subset ha)

/-- C8: for `1 ≤ top_k ≤ |candidates|`, the list returned by `rank` carries
the dense 1-based rank sequence `1, …, top_k` and is non-increasing in the
calibrated score. -/
theorem rank_order_and_ranks (rp : ℚ → ℚ) (candidates : List CandidateIn)
    (ri : RankingInput) (top_k : ℤ) (hk1 : 1 ≤ top_k)
    (hk2 : top_k.toNat ≤ candidates.length) :
    (rank rp candidates ri top_k).map (fun r => r.rank) = List.range' 1 top_k.toNat ∧
    (rank rp candidates ri top_k).Pairwise (fun a b => b.score ≤ a.score) := by
  unfold rank
  dsimp only
  rw [max_eq_left hk1]
  constructor
  · rw [assign_ranks_map_rank]
    congr 1
    rw [List.length_take, List.length_mergeSort]
    simp only [calibrate_scores, List.length_map]
    omega
  · set L := ((calibrate_scores rp
        ((candidates.map normalize_candidate).map
          (score_row ri (context_weights ri)
            (max 20 (min 95 (pyRound 1 (clamp01 ri.goal_feasibility * 100))))))).mergeSort
      (fun a b => decide (b.score ≤ a.score))) with hL
    have hp : L.Pairwise (fun a b => b.score ≤ a.score) :=
      (List.sorted_mergeSort rrow_le_trans rrow_le_total _).imp
        (fun h => of_decide_eq_true h)
    have hp2 := List.Pairwise.sublist (List.take_sublist top_k.toNat L) hp
    have hmap : List.Pairwise (fun x y : ℚ => y ≤ x)
        ((assign_ranks 1 (List.take top_k.toNat L)).map (fun r => r.score)) := by
      rw [assign_ranks_map_score]
      exact List.pairwise_map.mpr hp2
    exact List.pairwise_map.mp hmap

/-- C8 witness: a singleton candidate list with `top_k = 1` satisfies both
hypotheses, and the conclusion holds there. -/
theorem rank_order_and_ranks_witness :
    (1 : ℤ) ≤ 1 ∧ (1 : ℤ).toNat ≤ ([CandidateIn.bare "a"]).length ∧
    ((rank (fun x => x) [CandidateIn.bare "a"]
        ⟨0, 0, 0, {}, {}⟩ 1).map (fun r => r.rank) = List.range' 1 (1 : ℤ).toNat ∧
      (rank (fun x => x) [CandidateIn.bare "a"]
        ⟨0, 0, 0, {}, {}⟩ 1).Pairwise (fun a b => b.score ≤ a.score)) :=
  ⟨by decide, by decide,
    rank_order_and_ranks (fun x => x) [CandidateIn.bare "a"]
      ⟨0, 0, 0, {}, {}⟩ 1 (by decide) (by decide)⟩

/-- C10: for a non-empty candidate list and any `top_k ≤ 1` (zero and negative
included), `rank` still returns exactly one recommendation. -/
theorem rank_top_k_floor (rp : ℚ → ℚ) (candidates : List CandidateIn)
    (ri : RankingInput) (top_k : ℤ) (hne : candidates ≠ []) (hk : top_k ≤ 1) :
    (rank rp candidates ri top_k).length = 1 := by
  unfold rank
  dsimp only
  rw [max_eq_right hk, assign_ranks_length, List.length_take, List.length_mergeSort]
  simp only [calibrate_scores, List.length_map]
  have : candidates.length ≠ 0 := by
    simpa [List.length_eq_zero] using hne
  omega

/-- C10 witness: one candidate with `top_k = 0` still yields one ranked row. -/
theorem rank_top_k_floor_witness :
    ([CandidateIn.bare "a"] : List CandidateIn) ≠ [] ∧ (0 : ℤ) ≤ 1 ∧
    (rank (fun x => x) [CandidateIn.bare "a"] ⟨0, 0, 0, {}, {}⟩ 0).length = 1 :=
  ⟨by simp, by decide,
    rank_top_k_floor (fun x => x) [CandidateIn.bare "a"] ⟨0, 0, 0, {}, {}⟩ 0
      (by simp) (by decide)⟩

/-- A tier label computed from a percentage of at least 55 is never `"Low"`. -/
theorem score_tier_ne_low {pct : ℚ} (h : 55 ≤ pct) : score_tier pct ≠ "Low" := by
  unfold score_tier
  split_ifs with h1 h2
  · decide
  · decide
  · decide

/-- Calibrated rows always carry a score in `[0.55, 0.99]`, a percentage in
`[55, 99]` and a non-`Low` tier, provided the widening exponent maps
nonnegatives to nonnegatives (as `x ↦ x ^ 0.82` does). -/
theorem calibrate_score_bounds {rp : ℚ → ℚ} {rows : List RRow}
    (hrp : ∀ x : ℚ, 0 ≤ x → 0 ≤ rp x) {a : RRow}
    (ha : a ∈ calibrate_scores rp rows) :
    0.55 ≤ a.score ∧ a.score ≤ 0.99 ∧ 55 ≤ a.score_pct ∧ a.score_pct ≤ 99 ∧
    a.score_tier ≠ "Low" := by
  unfold calibrate_scores at ha
  dsimp only at ha
  obtain ⟨r, hr, rfl⟩ := List.mem_map.mp ha
  dsimp only
  have hlow : minQ 0 (rows.map (fun x => x.raw_score)) ≤ r.raw_score :=
    minQ_le_mem 0 (List.mem_map_of_mem _ hr)
  have hspread : (0 : ℚ) < max ((match rows.map (fun x => x.raw_score) with
      | [] => 1 | x :: xs => xs.foldl max x) - minQ 0 (rows.map (fun x => x.raw_score)))
      (1 / 1000000) :=
    lt_of_lt_of_le (by norm_num) (le_max_right _ _)
  have hn : 0 ≤ (r.raw_score - minQ 0 (rows.map (fun x => x.raw_score)))
      / max ((match rows.map (fun x => x.raw_score) with
      | [] => 1 | x :: xs => xs.foldl max x) - minQ 0 (rows.map (fun x => x.raw_score)))
      (1 / 1000000) :=
    div_nonneg (by linarith) hspread.le
  have hw : (0.55 : ℚ) ≤ 0.55 + 0.43 * rp ((r.raw_score
      - minQ 0 (rows.map (fun x => x.raw_score)))
      / max ((match rows.map (fun x => x.raw_score) with
      | [] => 1 | x :: xs => xs.foldl max x) - minQ 0 (rows.map (fun x => x.raw_score)))
      (1 / 1000000)) := by
    have := hrp _ hn
    linarith
  set w := 0.55 + 0.43 * rp ((r.raw_score - minQ 0 (rows.map (fun x => x.raw_score)))
      / max ((match rows.map (fun x => x.raw_score) with
      | [] => 1 | x :: xs => xs.foldl max x) - minQ 0 (rows.map (fun x => x.raw_score)))
      (1 / 1000000)) with hwdef
  have hcl : (0.55 : ℚ) ≤ min (max w 0) 0.99 :=
    le_min (le_trans hw (le_max_left _ _)) (by norm_num)
  have hcu : min (max w 0) 0.99 ≤ 0.99 := min_le_right _ _
  have hs1 : (0.55 : ℚ) ≤ pyRound 4 (min (max w 0) 0.99) := by
    have h5500 : ((5500 : ℤ) : ℚ) ≤ min (max w 0) 0.99 * 10 ^ 4 := by
      push_cast
      nlinarith [hcl]
    have := pyRound_ge h5500
    norm_num at this
    linarith
  have hs2 : pyRound 4 (min (max w 0) 0.99) ≤ 0.99 := by
    have h9900 : min (max w 0) 0.99 * 10 ^ 4 ≤ ((9900 : ℤ) : ℚ) := by
      push_cast
      nlinarith [hcu]
    have := pyRound_le h9900
    norm_num at this
    linarith
  have hp1 : (55 : ℚ) ≤ pyRound 1 (pyRound 4 (min (max w 0) 0.99) * 100) := by
    have h550 : ((550 : ℤ) : ℚ) ≤ pyRound 4 (min (max w 0) 0.99) * 100 * 10 ^ 1 := by
      push_cast
      nlinarith [hs1]
    have := pyRound_ge h550
    norm_num at this
    linarith
  have hp2 : pyRound 1 (pyRound 4 (min (max w 0) 0.99) * 100) ≤ 99 := by
    have h990 : pyRound 4 (min (max w 0) 0.99) * 100 * 10 ^ 1 ≤ ((990 : ℤ) : ℚ) := by
      push_cast
      nlinarith [hs2]
    have := pyRound_le h990
    norm_num at this
    linarith
  exact ⟨hs1, hs2, hp1, hp2, score_tier_ne_low hp1⟩

/-- When every raw score of the batch is the same, calibration produces
exactly `0.55` (given that the widening exponent maps `0` to `0`, as
`x ↦ x ^ 0.82` does). -/
theorem calibrate_all_equal {rp : ℚ → ℚ} {rows : List RRow} (h0 : rp 0 = 0)
    (heq : ∀ x ∈ rows.map (fun r => r.raw_score),
      ∀ y ∈ rows.map (fun r => r.raw_score), x = y)
    {a : RRow} (ha : a ∈ calibrate_scores rp rows) : a.score = 0.55 := by
  unfold calibrate_scores at ha
  dsimp only at ha
  obtain ⟨r, hr, rfl⟩ := List.mem_map.mp ha
  dsimp only
  have hraw_mem : r.raw_score ∈ rows.map (fun x => x.raw_score) :=
    List.mem_map_of_mem _ hr
  have hne : rows.map (fun x => x.raw_score) ≠ [] := by
    intro hnil
    rw [hnil] at hraw_mem
    cases hraw_mem
  have hlow_mem : minQ 0 (rows.map (fun x => x.raw_score))
      ∈ rows.map (fun x => x.raw_score) := minQ_mem 0 hne
  have hlow : minQ 0 (rows.map (fun x => x.raw_score)) = r.raw_score :=
    heq _ hlow_mem _ hraw_mem
  rw [hlow]
  have : (r.raw_score - r.raw_score) / max ((match rows.map (fun x => x.raw_score) with
      | [] => 1 | x :: xs => xs.foldl max x) - r.raw_score) (1 / 1000000) = 0 := by
    rw [sub_self, zero_div]
  rw [this, h0]
  have h055 : min (max (0.55 + 0.43 * (0:ℚ)) 0) 0.99 = 0.55 := by
    norm_num [min_def, max_def]
  rw [h055]
  exact pyRound_eq_self (m := 5500) (by norm_num)

/-- C9: every calibrated score emitted by `rank` lies in `[0.55, 0.99]` (so
`score_pct ≥ 55` and the `"Low"` tier is never produced), and when all raw
scores of the batch coincide every calibrated score is exactly `0.55`;
`rp` is the widening exponent `x ↦ x ^ 0.82`, whose two properties used here
are stated as hypotheses. -/
theorem rank_calibrated_band (rp : ℚ → ℚ) (candidates : List CandidateIn)
    (ri : RankingInput) (top_k : ℤ) (hrp0 : rp 0 = 0)
    (hrp : ∀ x : ℚ, 0 ≤ x → 0 ≤ rp x) (hne : candidates ≠ []) :
    (∀ row ∈ rank rp candidates ri top_k,
      0.55 ≤ row.score ∧ row.score ≤ 0.99 ∧ 55 ≤ row.score_pct ∧
      row.score_tier ≠ "Low") ∧
    ((∀ x ∈ ((candidates.map normalize_candidate).map
        (score_row ri (context_weights ri)
          (max 20 (min 95 (pyRound 1 (clamp01 ri.goal_feasibility * 100)))))).map
            (fun r => r.raw_score),
      ∀ y ∈ ((candidates.map normalize_candidate).map
        (score_row ri (context_weights ri)
          (max 20 (min 95 (pyRound 1 (clamp01 ri.goal_feasibility * 100)))))).map
            (fun r => r.raw_score), x = y) →
      ∀ row ∈ rank rp candidates ri top_k, row.score = 0.55) := by
  have hneL : candidates ≠ [] := hne
  constructor
  · intro row hrow
    obtain ⟨a, ha, m, rfl⟩ := mem_rank hrow
    obtain ⟨h1, h2, h3, _, h5⟩ := calibrate_score_bounds hrp ha
    exact ⟨h1, h2, h3, h5⟩
  · intro heq row hrow
    obtain ⟨a, ha, m, rfl⟩ := mem_rank hrow
    have h : a.score = 0.55 := calibrate_all_equal hrp0 heq ha
    exact h

/-- C9 witness: with the identity in place of the exponent (which satisfies
both hypotheses) and a single candidate, the band and the all-equal case are
instantiated. -/
theorem rank_calibrated_band_witness :
    (fun x : ℚ => x) 0 = 0 ∧ (∀ x : ℚ, 0 ≤ x → 0 ≤ (fun x : ℚ => x) x) ∧
    ([CandidateIn.bare "a"] : List CandidateIn) ≠ [] ∧
    ((∀ row ∈ rank (fun x : ℚ => x) [CandidateIn.bare "a"] ⟨0, 0, 0, {}, {}⟩ 1,
      0.55 ≤ row.score ∧ row.score ≤ 0.99 ∧ 55 ≤ row.score_pct ∧
      row.score_tier ≠ "Low") ∧
    ((∀ x ∈ ((([CandidateIn.bare "a"] : List CandidateIn).map normalize_candidate).map
        (score_row ⟨0, 0, 0, {}, {}⟩ (context_weights ⟨0, 0, 0, {}, {}⟩)
          (max 20 (min 95 (pyRound 1 (clamp01 (RankingInput.goal_feasibility ⟨0, 0, 0, {}, {}⟩) * 100)))))).map
            (fun r => r.raw_score),
      ∀ y ∈ ((([CandidateIn.bare "a"] : List CandidateIn).map normalize_candidate).map
        (score_row ⟨0, 0, 0, {}, {}⟩ (context_weights ⟨0, 0, 0, {}, {}⟩)
          (max 20 (min 95 (pyRound 1 (clamp01 (RankingInput.goal_feasibility ⟨0, 0, 0, {}, {}⟩) * 100)))))).map
            (fun r => r.raw_score), x = y) →
      ∀ row ∈ rank (fun x : ℚ => x) [CandidateIn.bare "a"] ⟨0, 0, 0, {}, {}⟩ 1,
        row.score = 0.55)) :=
  ⟨rfl, fun _ h => h, by simp,
    rank_calibrated_band (fun x : ℚ => x) [CandidateIn.bare "a"]
      ⟨0, 0, 0, {}, {}⟩ 1 rfl (fun _ h => h) (by simp)⟩

/-! ### Field-bound lemmas for the range invariant -/

theorem pyRound_mem_unit {n : ℕ} {x : ℚ} (h0 : 0 ≤ x) (h1 : x ≤ 1) :
    0 ≤ pyRound n x ∧ pyRound n x ≤ 1 :=
  ⟨pyRound_nonneg h0, pyRound_le_one h1⟩

theorem normalize_candidate_base (c : CandidateIn) :
    0 ≤ (normalize_candidate c).base_score ∧ (normalize_candidate c).base_score ≤ 1 := by
  cases c with
  | bare t =>
    constructor <;> norm_num [normalize_candidate]
  | record r b t =>
    exact ⟨clamp01_nonneg b, clamp01_le_one b⟩

theorem profile_fit_bounds (cand : Candidate) (up : UserProfileR) :
    0 ≤ profile_fit cand up ∧ profile_fit cand up ≤ 1 := by
  unfold profile_fit
  dsimp only
  split_ifs <;> norm_num

theorem risk_fit_bounds (cand : Candidate) (ri : RankingInput) :
    0 ≤ risk_fit cand ri ∧ risk_fit cand ri ≤ 1 := by
  unfold risk_fit
  exact ⟨clamp01_nonneg _, clamp01_le_one _⟩

theorem urgency_signal_bounds (cand : Candidate) (ri : RankingInput) :
    0 ≤ urgency_signal cand ri ∧ urgency_signal cand ri ≤ 1 := by
  unfold urgency_signal
  exact ⟨clamp01_nonneg _, clamp01_le_one _⟩

theorem upstream_signal_bounds (uo : UpstreamOutputs) :
    0 ≤ upstream_signal uo ∧ upstream_signal uo ≤ 1 := by
  unfold upstream_signal
  exact ⟨clamp01_nonneg _, clamp01_le_one _⟩

theorem final_score_bounds (cand : Candidate) (ri : RankingInput) (w : Weights) :
    0 ≤ final_score_of cand ri w ∧ final_score_of cand ri w ≤ 1 := by
  unfold final_score_of
  exact ⟨clamp01_nonneg _, clamp01_le_one _⟩

theorem success_delta_bounds (score : ℚ) (cand : Candidate) :
    6 ≤ success_delta score cand ∧ success_delta score cand ≤ 22 := by
  unfold success_delta
  dsimp only
  constructor
  · have h60 : ((60 : ℤ) : ℚ) ≤ min 22 (max 6 (score * 18 *
        (if template_difficulty cand.template_key = "Easy" then 1.15
        else if template_difficulty cand.template_key = "Behavioral Shift Required" then 0.85
        else 1))) * 10 ^ 1 := by
      have h6 : (6 : ℚ) ≤ min 22 (max 6 (score * 18 *
          (if template_difficulty cand.template_key = "Easy" then 1.15
          else if template_difficulty cand.template_key = "Behavioral Shift Required" then 0.85
          else 1))) :=
        le_min (by norm_num) (le_max_left _ _)
      push_cast
      nlinarith [h6]
    have hge := pyRound_ge h60
    rw [show ((60 : ℤ) : ℚ) / 10 ^ 1 = 6 by norm_num] at hge
    exact hge
  · have h220 : min 22 (max 6 (score * 18 *
        (if template_difficulty cand.template_key = "Easy" then 1.15
        else if template_difficulty cand.template_key = "Behavioral Shift Required" then 0.85
        else 1))) * 10 ^ 1 ≤ ((220 : ℤ) : ℚ) := by
      have h22 : min 22 (max 6 (score * 18 *
          (if template_difficulty cand.template_key = "Easy" then 1.15
          else if template_difficulty cand.template_key = "Behavioral Shift Required" then 0.85
          else 1))) ≤ 22 := min_le_left _ _
      push_cast
      nlinarith [h22]
    have hle := pyRound_le h220
    rw [show ((220 : ℤ) : ℚ) / 10 ^ 1 = 22 by norm_num] at hle
    exact hle

/-- Bounds of the calibrated score and percentage for an arbitrary widened
value `w` (no assumption on the exponent needed). -/
theorem cal_score_bounds_aux (w : ℚ) :
    0 ≤ pyRound 4 (min (max w 0) 0.99) ∧ pyRound 4 (min (max w 0) 0.99) ≤ 0.99 ∧
    0 ≤ pyRound 1 (pyRound 4 (min (max w 0) 0.99) * 100) ∧
    pyRound 1 (pyRound 4 (min (max w 0) 0.99) * 100) ≤ 99 := by
  have hcl : (0 : ℚ) ≤ min (max w 0) 0.99 := le_min (le_max_right _ _) (by norm_num)
  have hcu : min (max w 0) 0.99 ≤ 0.99 := min_le_right _ _
  have hs0 : 0 ≤ pyRound 4 (min (max w 0) 0.99) := pyRound_nonneg hcl
  have hs1 : pyRound 4 (min (max w 0) 0.99) ≤ 0.99 := by
    have h9900 : min (max w 0) 0.99 * 10 ^ 4 ≤ ((9900 : ℤ) : ℚ) := by
      push_cast
      nlinarith [hcu]
    have hle := pyRound_le h9900
    rw [show ((9900 : ℤ) : ℚ) / 10 ^ 4 = 0.99 by norm_num] at hle
    exact hle
  refine ⟨hs0, hs1, pyRound_nonneg (by nlinarith [hs0]), ?_⟩
  have h990 : pyRound 4 (min (max w 0) 0.99) * 100 * 10 ^ 1 ≤ ((990 : ℤ) : ℚ) := by
    push_cast
    nlinarith [hs1]
  have hle := pyRound_le h990
  rw [show ((990 : ℤ) : ℚ) / 10 ^ 1 = 99 by norm_num] at hle
  exact hle

/-- Calibrated rows always have `score ∈ [0, 0.99]` and `score_pct ∈ [0, 99]`,
for any widening exponent whatsoever. -/
theorem calibrate_unit_bounds {rp : ℚ → ℚ} {rows : List RRow} {a : RRow}
    (ha : a ∈ calibrate_scores rp rows) :
    0 ≤ a.score ∧ a.score ≤ 0.99 ∧ 0 ≤ a.score_pct ∧ a.score_pct ≤ 99 := by
  unfold calibrate_scores at ha
  dsimp only at ha
  obtain ⟨r, hr, rfl⟩ := List.mem_map.mp ha
  exact cal_score_bounds_aux _

/-- The per-row range invariant of `rank`: all emitted score components lie in
`[0, 1]`, the calibrated score and percentage in `[0, 1]` resp. `[0, 100]`,
the success probabilities in `[0, 100]`, and the feasibility impact in
`[-20, -6]` — the last needs the documented `goal_feasibility ∈ [0, 1]`
validity bound of `RankingInput`. -/
theorem rank_row_field_bounds (rp : ℚ → ℚ) (candidates : List CandidateIn)
    (ri : RankingInput) (top_k : ℤ) (hgf0 : 0 ≤ ri.goal_feasibility)
    (hgf1 : ri.goal_feasibility ≤ 1) :
    ∀ row ∈ rank rp candidates ri top_k,
      (0 ≤ row.base_score ∧ row.base_score ≤ 1) ∧
      (0 ≤ row.raw_score ∧ row.raw_score ≤ 1) ∧
      (0 ≤ row.risk_fit ∧ row.risk_fit ≤ 1) ∧
      (0 ≤ row.profile_fit ∧ row.profile_fit ≤ 1) ∧
      (0 ≤ row.urgency_signal ∧ row.urgency_signal ≤ 1) ∧
      (0 ≤ row.upstream_signal ∧ row.upstream_signal ≤ 1) ∧
      (0 ≤ row.score ∧ row.score ≤ 1) ∧
      (0 ≤ row.score_pct ∧ row.score_pct ≤ 100) ∧
      (0 ≤ row.goal_success_probability_before ∧
        row.goal_success_probability_before ≤ 100) ∧
      (0 ≤ row.goal_success_probability_after ∧
        row.goal_success_probability_after ≤ 100) ∧
      (-20 ≤ row.feasibility_impact_pct ∧ row.feasibility_impact_pct ≤ -6) := by
  intro row hrow
  obtain ⟨a, ha, m, rfl⟩ := mem_rank hrow
  obtain ⟨hsc0, hsc1, hpc0, hpc1⟩ := calibrate_unit_bounds ha
  unfold calibrate_scores at ha
  dsimp only at ha
  obtain ⟨r, hrmem, rfl⟩ := List.mem_map.mp ha
  obtain ⟨nc, hnc, rfl⟩ := List.mem_map.mp hrmem
  obtain ⟨c0, hc0, rfl⟩ := List.mem_map.mp hnc
  have hbase := normalize_candidate_base c0
  have hfin := final_score_bounds (normalize_candidate c0) ri (context_weights ri)
  have hgp0 : (0 : ℚ) ≤ 1 - ri.goal_feasibility := by linarith
  have hgp1 : 1 - ri.goal_feasibility ≤ 1 := by linarith
  have hprod0 : (0 : ℚ) ≤ final_score_of (normalize_candidate c0) ri (context_weights ri)
      * (1 - ri.goal_feasibility) := mul_nonneg hfin.1 hgp0
  have hprod1 : final_score_of (normalize_candidate c0) ri (context_weights ri)
      * (1 - ri.goal_feasibility) ≤ 1 := by nlinarith [hfin.1, hfin.2, hgp0, hgp1]
  have hinner0 : (6 : ℚ) ≤ min 20 (6 + 18 * final_score_of (normalize_candidate c0) ri
      (context_weights ri) * (1 - ri.goal_feasibility)) :=
    le_min (by norm_num) (by nlinarith [hprod0])
  have hinner1 : min 20 (6 + 18 * final_score_of (normalize_candidate c0) ri
      (context_weights ri) * (1 - ri.goal_feasibility)) ≤ 20 := min_le_left _ _
  have hfeas0 : (-20 : ℚ) ≤ pyRound 1 (-(min 20 (6 + 18 * final_score_of
      (normalize_candidate c0) ri (context_weights ri) * (1 - ri.goal_feasibility)))) := by
    have hm : ((-200 : ℤ) : ℚ) ≤ -(min 20 (6 + 18 * final_score_of
        (normalize_candidate c0) ri (context_weights ri) * (1 - ri.goal_feasibility)))
        * 10 ^ 1 := by
      push_cast
      nlinarith [hinner1]
    have hge := pyRound_ge hm
    rw [show ((-200 : ℤ) : ℚ) / 10 ^ 1 = -20 by norm_num] at hge
    exact hge
  have hfeas1 : pyRound 1 (-(min 20 (6 + 18 * final_score_of
      (normalize_candidate c0) ri (context_weights ri) * (1 - ri.goal_feasibility))))
      ≤ -6 := by
    have hm : -(min 20 (6 + 18 * final_score_of (normalize_candidate c0) ri
        (context_weights ri) * (1 - ri.goal_feasibility))) * 10 ^ 1
        ≤ ((-60 : ℤ) : ℚ) := by
      push_cast
      nlinarith [hinner0]
    have hle := pyRound_le hm
    rw [show ((-60 : ℤ) : ℚ) / 10 ^ 1 = -6 by norm_num] at hle
    exact hle
  have hb : (20 : ℚ) ≤ max 20 (min 95 (pyRound 1 (clamp01 ri.goal_feasibility * 100))) :=
    le_max_left _ _
  have hb1 : max 20 (min 95 (pyRound 1 (clamp01 ri.goal_feasibility * 100))) ≤ 95 :=
    max_le (by norm_num) (min_le_left _ _)
  have hdelta := success_delta_bounds
    (final_score_of (normalize_candidate c0) ri (context_weights ri))
    (normalize_candidate c0)
  have hafter0 : (0 : ℚ) ≤ min 98 (pyRound 1
      (max 20 (min 95 (pyRound 1 (clamp01 ri.goal_feasibility * 100)))
        + success_delta (final_score_of (normalize_candidate c0) ri (context_weights ri))
          (normalize_candidate c0))) :=
    le_min (by norm_num) (pyRound_nonneg (by linarith [hb, hdelta.1]))
  have hafter1 : min 98 (pyRound 1
      (max 20 (min 95 (pyRound 1 (clamp01 ri.goal_feasibility * 100)))
        + success_delta (final_score_of (normalize_candidate c0) ri (context_weights ri))
          (normalize_candidate c0))) ≤ 100 :=
    le_trans (min_le_left _ _) (by norm_num)
  refine ⟨⟨pyRound_nonneg hbase.1, pyRound_le_one hbase.2⟩,
    ⟨pyRound_nonneg hfin.1, pyRound_le_one hfin.2⟩,
    ⟨pyRound_nonneg (risk_fit_bounds _ _).1, pyRound_le_one (risk_fit_bounds _ _).2⟩,
    ⟨pyRound_nonneg (profile_fit_bounds _ _).1, pyRound_le_one (profile_fit_bounds _ _).2⟩,
    ⟨pyRound_nonneg (urgency_signal_bounds _ _).1, pyRound_le_one (urgency_signal_bounds _ _).2⟩,
    ⟨pyRound_nonneg (upstream_signal_bounds _).1, pyRound_le_one (upstream_signal_bounds _).2⟩,
    ⟨hsc0, le_trans hsc1 (by norm_num)⟩, ⟨hpc0, le_trans hpc1 (by norm_num)⟩,
    ⟨le_trans (by norm_num : (0:ℚ) ≤ 20) hb, le_trans hb1 (by norm_num)⟩,
    ⟨hafter0, hafter1⟩, ⟨hfeas0, hfeas1⟩⟩

theorem rule_score_bounds (bf : BehaviorFeatures) :
    0 ≤ rule_score bf ∧ rule_score bf ≤ 1 := by
  unfold rule_score
  exact ⟨clamp01_nonneg _, clamp01_le_one _⟩

/-- Confidence emitted by the habit detector is in `[0, 1]`; the only
assumption is the scikit-learn contract that a loaded classifier returns a
probability in `[0, 1]`. -/
theorem predict_confidence_bounds (model : Option (BehaviorFeatures → ℚ))
    (bf : BehaviorFeatures) (category : String)
    (hm : ∀ f, model = some f → 0 ≤ f bf ∧ f bf ≤ 1) :
    0 ≤ (predict model bf category).confidence ∧
    (predict model bf category).confidence ≤ 1 := by
  unfold predict
  dsimp only
  by_cases hfix : dictGet CATEGORY_TO_NATURE (lowerStr (stripStr category)) "" = "Fixed"
  · rw [if_pos hfix]
    exact ⟨(pyRound_zero 3).ge, le_trans (pyRound_zero 3).le (by norm_num)⟩
  · rw [if_neg hfix]
    rcases model with _ | f
    · dsimp only
      simp only [ml_score]
      exact ⟨pyRound_nonneg (rule_score_bounds bf).1, pyRound_le_one (rule_score_bounds bf).2⟩
    · dsimp only
      simp only [ml_score]
      obtain ⟨h0, h1⟩ := hm f rfl
      obtain ⟨hr0, hr1⟩ := rule_score_bounds bf
      exact ⟨pyRound_nonneg (by linarith), pyRound_le_one (by linarith)⟩

theorem goal_conflict_row_cs_bounds (hd : HabitDetectionIn) (p : ProfileC)
    (ctx : ContextC) (g : GoalDict) :
    0 ≤ (goal_conflict_row hd p ctx g).conflict_score ∧
    (goal_conflict_row hd p ctx g).conflict_score ≤ 1 := by
  unfold goal_conflict_row goal_conflict_score
  exact ⟨pyRound_nonneg (clamp01_nonneg _), pyRound_le_one (clamp01_le_one _)⟩

/-- Every per-goal conflict score and the overall conflict score emitted by
`detect_conflicts` lie in `[0, 1]`. -/
theorem detect_conflicts_score_bounds (hd : HabitDetectionIn)
    (goals : List GoalDict) (p : ProfileC) (ctx : ContextC) :
    (∀ r ∈ (detect_conflicts hd goals p ctx).goal_conflicts,
      0 ≤ r.conflict_score ∧ r.conflict_score ≤ 1) ∧
    0 ≤ (detect_conflicts hd goals p ctx).overall_conflict_score ∧
    (detect_conflicts hd goals p ctx).overall_conflict_score ≤ 1 := by
  by_cases hg : goals.isEmpty
  · unfold detect_conflicts
    rw [if_pos hg]
    refine ⟨?_, by norm_num, by norm_num⟩
    intro r hr
    simp at hr
  · unfold detect_conflicts
    rw [if_neg hg]
    dsimp only
    have hrow : ∀ r ∈ (goals.map (goal_conflict_row hd p ctx)).mergeSort
        (fun a b => decide (b.conflict_score ≤ a.conflict_score)),
        0 ≤ r.conflict_score ∧ r.conflict_score ≤ 1 := by
      intro r hr
      obtain ⟨g, _, rfl⟩ := List.mem_map.mp (List.mem_mergeSort.mp hr)
      exact goal_conflict_row_cs_bounds hd p ctx g
    refine ⟨hrow, ?_, ?_⟩
    · have hne : goals ≠ [] := by simpa [List.isEmpty_iff] using hg
      have hsne : ((goals.map (goal_conflict_row hd p ctx)).mergeSort
          (fun a b => decide (b.conflict_score ≤ a.conflict_score))).map
            (fun r => r.conflict_score) ≠ [] := by
        intro hnil
        have := congrArg List.length hnil
        simp [List.length_mergeSort] at this
        exact hne this
      obtain ⟨r, hrm, hre⟩ := List.mem_map.mp (maxQ_mem hsne)
      have hb := (hrow r hrm).1
      rw [hre] at hb
      exact pyRound_nonneg hb
    · have hne : goals ≠ [] := by simpa [List.isEmpty_iff] using hg
      have hsne : ((goals.map (goal_conflict_row hd p ctx)).mergeSort
          (fun a b => decide (b.conflict_score ≤ a.conflict_score))).map
            (fun r => r.conflict_score) ≠ [] := by
        intro hnil
        have := congrArg List.length hnil
        simp [List.length_mergeSort] at this
        exact hne this
      obtain ⟨r, hrm, hre⟩ := List.mem_map.mp (maxQ_mem hsne)
      have hb := (hrow r hrm).2
      rw [hre] at hb
      exact pyRound_le_one hb

/-- C2 (amended): across the pipeline, the detector confidence, every per-goal
and overall conflict score, and every candidate score component (base, raw,
risk fit, profile fit, urgency, upstream, calibrated score) lie in `[0, 1]`;
`score_pct` and both goal-success probabilities lie in `[0, 100]`; but
`feasibility_impact_pct` lies in `[-20, -6]`, never in `[0, 100]`. -/
theorem pipeline_ranges :
    (∀ (model : Option (BehaviorFeatures → ℚ)) (bf : BehaviorFeatures)
        (category : String),
      (∀ f, model = some f → 0 ≤ f bf ∧ f bf ≤ 1) →
      0 ≤ (predict model bf category).confidence ∧
        (predict model bf category).confidence ≤ 1) ∧
    (∀ (hd : HabitDetectionIn) (goals : List GoalDict) (p : ProfileC)
        (ctx : ContextC),
      (∀ r ∈ (detect_conflicts hd goals p ctx).goal_conflicts,
        0 ≤ r.conflict_score ∧ r.conflict_score ≤ 1) ∧
      0 ≤ (detect_conflicts hd goals p ctx).overall_conflict_score ∧
      (detect_conflicts hd goals p ctx).overall_conflict_score ≤ 1) ∧
    (∀ (rp : ℚ → ℚ) (candidates : List CandidateIn) (ri : RankingInput)
        (top_k : ℤ), 0 ≤ ri.goal_feasibility → ri.goal_feasibility ≤ 1 →
      ∀ row ∈ rank rp candidates ri top_k,
        (0 ≤ row.base_score ∧ row.base_score ≤ 1) ∧
        (0 ≤ row.raw_score ∧ row.raw_score ≤ 1) ∧
        (0 ≤ row.risk_fit ∧ row.risk_fit ≤ 1) ∧
        (0 ≤ row.profile_fit ∧ row.profile_fit ≤ 1) ∧
        (0 ≤ row.urgency_signal ∧ row.urgency_signal ≤ 1) ∧
        (0 ≤ row.upstream_signal ∧ row.upstream_signal ≤ 1) ∧
        (0 ≤ row.score ∧ row.score ≤ 1) ∧
        (0 ≤ row.score_pct ∧ row.score_pct ≤ 100) ∧
        (0 ≤ row.goal_success_probability_before ∧
          row.goal_success_probability_before ≤ 100) ∧
        (0 ≤ row.goal_success_probability_after ∧
          row.goal_success_probability_after ≤ 100) ∧
        (-20 ≤ row.feasibility_impact_pct ∧ row.feasibility_impact_pct ≤ -6)) :=
  ⟨predict_confidence_bounds, detect_conflicts_score_bounds, rank_row_field_bounds⟩

/-- C2 (counterexample): at a concrete input, the single ranked row has
`feasibility_impact_pct = -6`, which does not lie in `[0, 100]` — the field is
always negative (the spec even defines it as `−min(20, 6+18·score·pressure)`). -/
theorem rank_feasibility_pct_negative :
    ((rank (fun x => x) [CandidateIn.record "x" 0 "y"]
        ⟨0, 1, 0, {}, {}⟩ 1).map (fun r => r.feasibility_impact_pct)) = [-6] ∧
    ¬ ((0 : ℚ) ≤ -6) := by
  constructor
  · unfold rank
    dsimp only
    simp only [List.map, calibrate_scores, List.mergeSort_singleton]
    norm_num [assign_ranks, List.take, score_row]
    exact pyRound_eq_self (m := -60) (by norm_num)
  · norm_num

/-- C2 witness: the range theorem instantiated at a loaded-model habit call
(probability `1/2` satisfies the classifier contract) and at a one-candidate
ranking call whose `goal_feasibility` is the valid value `1`. -/
theorem pipeline_ranges_witness :
    (∀ f, (some (fun _ : BehaviorFeatures => (1 : ℚ)/2)) = some f →
      0 ≤ f (⟨1, 1, 1, 1, 1⟩ : BehaviorFeatures) ∧ f (⟨1, 1, 1, 1, 1⟩ : BehaviorFeatures) ≤ 1) ∧
    (0 ≤ (predict (some (fun _ : BehaviorFeatures => (1 : ℚ)/2)) (⟨1, 1, 1, 1, 1⟩ : BehaviorFeatures) "shopping").confidence ∧
      (predict (some (fun _ : BehaviorFeatures => (1 : ℚ)/2)) (⟨1, 1, 1, 1, 1⟩ : BehaviorFeatures) "shopping").confidence ≤ 1) ∧
    (0 ≤ (⟨0, 1, 0, {}, {}⟩ : RankingInput).goal_feasibility ∧ (⟨0, 1, 0, {}, {}⟩ : RankingInput).goal_feasibility ≤ 1) ∧
    (∀ row ∈ rank (fun x : ℚ => x) [CandidateIn.bare "a"] (⟨0, 1, 0, {}, {}⟩ : RankingInput) 1,
      (0 ≤ row.base_score ∧ row.base_score ≤ 1) ∧
      (0 ≤ row.raw_score ∧ row.raw_score ≤ 1) ∧
      (0 ≤ row.risk_fit ∧ row.risk_fit ≤ 1) ∧
      (0 ≤ row.profile_fit ∧ row.profile_fit ≤ 1) ∧
      (0 ≤ row.urgency_signal ∧ row.urgency_signal ≤ 1) ∧
      (0 ≤ row.upstream_signal ∧ row.upstream_signal ≤ 1) ∧
      (0 ≤ row.score ∧ row.score ≤ 1) ∧
      (0 ≤ row.score_pct ∧ row.score_pct ≤ 100) ∧
      (0 ≤ row.goal_success_probability_before ∧
        row.goal_success_probability_before ≤ 100) ∧
      (0 ≤ row.goal_success_probability_after ∧
        row.goal_success_probability_after ≤ 100) ∧
      (-20 ≤ row.feasibility_impact_pct ∧ row.feasibility_impact_pct ≤ -6)) :=
  ⟨fun f hf => by
      injection hf with h
      subst h
      constructor <;> norm_num,
    pipeline_ranges.1 (some (fun _ : BehaviorFeatures => (1 : ℚ)/2)) (⟨1, 1, 1, 1, 1⟩ : BehaviorFeatures) "shopping"
      (fun f hf => by
        injection hf with h
        subst h
        constructor <;> norm_num),
    ⟨by norm_num, by norm_num⟩,
    pipeline_ranges.2.2 (fun x : ℚ => x) [CandidateIn.bare "a"] (⟨0, 1, 0, {}, {}⟩ : RankingInput) 1
      (by norm_num) (by norm_num)⟩

/-- C4 (counterexample): with no habit detected, a non-Fixed profile in
category `"entertainment"` with low weekend ratio and low spend but weekly
frequency `5` gets the pre-planned-purchase-slots fallback, not the periodic
monitoring message that the claimed decision table's `else` arm predicts. -/
theorem light_touch_else_not_monitoring :
    ((recommend_ranked_behaviors (fun x : ℚ => x) none (fun _ _ => [])
        (⟨false, "", "Low", 0⟩ : EngineHabit)
        (⟨"Variable", "entertainment", "balanced", "Medium", 0, 5, 100, 0.2, 0, 0.5⟩
          : EngineProfile)
        {} 5).map (fun r => r.recommendation))
      = ["Use pre-planned purchase slots for this category and avoid unscheduled repeats."] ∧
    ("Use pre-planned purchase slots for this category and avoid unscheduled repeats."
      ≠ "No strong behavioral pattern is currently detected; continue periodic category monitoring.") := by
  constructor
  · have hcat : lowerStr (stripStr "entertainment") = "entertainment" := by decide
    unfold recommend_ranked_behaviors
    dsimp only
    rw [if_neg (by decide : ¬ ("Variable" = "Fixed")), if_pos rfl]
    unfold light_touch_strategy
    dsimp only
    rw [hcat]
    rw [if_neg (by decide : ¬ ("entertainment" = "subscriptions")),
      if_neg (by decide : ¬ ("entertainment" = "travel")),
      if_neg (by norm_num : ¬ ((0.6 : ℚ) ≤ 0.2)),
      if_neg (by norm_num : ¬ ((2000 : ℚ) ≤ 100)),
      if_pos (by norm_num : (3 : ℚ) ≤ 5)]
    rfl
  · decide

/-- C4 (amended): whenever no habit is detected and the expense nature is not
Fixed, `recommend_ranked_behaviors` returns exactly the single light-touch
fallback row, whose message is chosen by the decision table
subscriptions → subscription review; travel → per-trip envelope;
weekend_ratio ≥ 0.6 → weekend cap; spend ≥ 2000 → per-transaction cap;
frequency ≥ 3 → pre-planned purchase slots; else → periodic monitoring —
so the output is never empty, and in the subscriptions case the single
recommendation mentions subscription review. -/
theorem light_touch_single (rp : ℚ → ℚ) (st : Option (ℚ → ℚ → ℚ → ℚ → ℚ → ℚ))
    (ntf : String → ℤ → List (String × ℚ)) (hd : EngineHabit) (p : EngineProfile)
    (upstream : UpstreamOutputs) (top_k : ℤ)
    (hnf : p.expense_nature ≠ "Fixed") (hnd : hd.habit_detected = false) :
    recommend_ranked_behaviors rp st ntf hd p upstream top_k
      = [light_touch_row (light_touch_strategy p)] ∧
    (recommend_ranked_behaviors rp st ntf hd p upstream top_k).length = 1 ∧
    (∀ row ∈ recommend_ranked_behaviors rp st ntf hd p upstream top_k,
      row.recommendation = light_touch_strategy p) ∧
    (lowerStr (stripStr p.category) = "subscriptions" →
      light_touch_strategy p
          = "Review active subscriptions monthly and remove low-value renewals." ∧
        subTextIn (lowerStr (light_touch_strategy p)) "subscription" = true ∧
        subTextIn (lowerStr (light_touch_strategy p)) "review" = true) ∧
    (lowerStr (stripStr p.category) ≠ "subscriptions" →
      lowerStr (stripStr p.category) = "travel" →
      light_touch_strategy p
        = "Set a travel spending envelope per trip and confirm bookings against that limit.") ∧
    (lowerStr (stripStr p.category) ≠ "subscriptions" →
      lowerStr (stripStr p.category) ≠ "travel" → 0.6 ≤ p.weekend_ratio →
      light_touch_strategy p
        = "Set a weekend budget cap for this category and track adherence weekly.") ∧
    (lowerStr (stripStr p.category) ≠ "subscriptions" →
      lowerStr (stripStr p.category) ≠ "travel" → ¬ (0.6 ≤ p.weekend_ratio) →
      2000 ≤ p.spend →
      light_touch_strategy p
        = "Set a per-transaction budget limit and review exceptions at month-end.") ∧
    (lowerStr (stripStr p.category) ≠ "subscriptions" →
      lowerStr (stripStr p.category) ≠ "travel" → ¬ (0.6 ≤ p.weekend_ratio) →
      ¬ (2000 ≤ p.spend) → 3 ≤ p.frequency →
      light_touch_strategy p
        = "Use pre-planned purchase slots for this category and avoid unscheduled repeats.") ∧
    (lowerStr (stripStr p.category) ≠ "subscriptions" →
      lowerStr (stripStr p.category) ≠ "travel" → ¬ (0.6 ≤ p.weekend_ratio) →
      ¬ (2000 ≤ p.spend) → ¬ (3 ≤ p.frequency) →
      light_touch_strategy p
        = "No strong behavioral pattern is currently detected; continue periodic category monitoring.") := by
  have he : recommend_ranked_behaviors rp st ntf hd p upstream top_k
      = [light_touch_row (light_touch_strategy p)] := by
    unfold recommend_ranked_behaviors
    rw [if_neg hnf, if_pos hnd]
  refine ⟨he, by rw [he]; rfl, ?_, ?_, ?_, ?_, ?_, ?_, ?_⟩
  · intro row hrow
    rw [he] at hrow
    rcases List.mem_cons.mp hrow with rfl | hfalse
    · rfl
    · cases hfalse
  · intro h
    have e1 : light_touch_strategy p
        = "Review active subscriptions monthly and remove low-value renewals." := by
      unfold light_touch_strategy
      rw [h, if_pos rfl]
    exact ⟨e1, by rw [e1]; decide, by rw [e1]; decide⟩
  · intro h1 h2
    unfold light_touch_strategy
    rw [if_neg h1, h2, if_pos rfl]
  · intro h1 h2 h3
    unfold light_touch_strategy
    rw [if_neg h1, if_neg h2, if_pos h3]
  · intro h1 h2 h3 h4
    unfold light_touch_strategy
    rw [if_neg h1, if_neg h2, if_neg h3, if_pos h4]
  · intro h1 h2 h3 h4 h5
    unfold light_touch_strategy
    rw [if_neg h1, if_neg h2, if_neg h3, if_neg h4, if_pos h5]
  · intro h1 h2 h3 h4 h5
    unfold light_touch_strategy
    rw [if_neg h1, if_neg h2, if_neg h3, if_neg h4, if_neg h5]

/-- C4 witness: Scenario D — no habit detected, category `"subscriptions"` —
instantiates the theorem; both hypotheses are discharged concretely. -/
theorem light_touch_single_witness :
    ((⟨"Variable", "subscriptions", "balanced", "Medium", 0, 0, 0, 0, 0, 0.5⟩ : EngineProfile).expense_nature ≠ "Fixed") ∧
    ((⟨false, "", "Low", 0⟩ : EngineHabit).habit_detected = false) ∧
    ((recommend_ranked_behaviors (fun x : ℚ => x) none (fun _ _ => [])
        (⟨false, "", "Low", 0⟩ : EngineHabit)
        (⟨"Variable", "subscriptions", "balanced", "Medium", 0, 0, 0, 0, 0, 0.5⟩ : EngineProfile) {} 5)
      = [light_touch_row (light_touch_strategy (⟨"Variable", "subscriptions", "balanced", "Medium", 0, 0, 0, 0, 0, 0.5⟩ : EngineProfile))] ∧
    (recommend_ranked_behaviors (fun x : ℚ => x) none (fun _ _ => [])
        (⟨false, "", "Low", 0⟩ : EngineHabit)
        (⟨"Variable", "subscriptions", "balanced", "Medium", 0, 0, 0, 0, 0, 0.5⟩ : EngineProfile) {} 5).length = 1 ∧
    (∀ row ∈ recommend_ranked_behaviors (fun x : ℚ => x) none (fun _ _ => [])
        (⟨false, "", "Low", 0⟩ : EngineHabit)
        (⟨"Variable", "subscriptions", "balanced", "Medium", 0, 0, 0, 0, 0, 0.5⟩ : EngineProfile) {} 5,
      row.recommendation = light_touch_strategy (⟨"Variable", "subscriptions", "balanced", "Medium", 0, 0, 0, 0, 0, 0.5⟩ : EngineProfile)) ∧
    (lowerStr (stripStr (⟨"Variable", "subscriptions", "balanced", "Medium", 0, 0, 0, 0, 0, 0.5⟩ : EngineProfile).category) = "subscriptions" →
      light_touch_strategy (⟨"Variable", "subscriptions", "balanced", "Medium", 0, 0, 0, 0, 0, 0.5⟩ : EngineProfile)
          = "Review active subscriptions monthly and remove low-value renewals." ∧
        subTextIn (lowerStr (light_touch_strategy (⟨"Variable", "subscriptions", "balanced", "Medium", 0, 0, 0, 0, 0, 0.5⟩ : EngineProfile))) "subscription" = true ∧
        subTextIn (lowerStr (light_touch_strategy (⟨"Variable", "subscriptions", "balanced", "Medium", 0, 0, 0, 0, 0, 0.5⟩ : EngineProfile))) "review" = true) ∧
    (lowerStr (stripStr (⟨"Variable", "subscriptions", "balanced", "Medium", 0, 0, 0, 0, 0, 0.5⟩ : EngineProfile).category) ≠ "subscriptions" →
      lowerStr (stripStr (⟨"Variable", "subscriptions", "balanced", "Medium", 0, 0, 0, 0, 0, 0.5⟩ : EngineProfile).category) = "travel" →
      light_touch_strategy (⟨"Variable", "subscriptions", "balanced", "Medium", 0, 0, 0, 0, 0, 0.5⟩ : EngineProfile)
        = "Set a travel spending envelope per trip and confirm bookings against that limit.") ∧
    (lowerStr (stripStr (⟨"Variable", "subscriptions", "balanced", "Medium", 0, 0, 0, 0, 0, 0.5⟩ : EngineProfile).category) ≠ "subscriptions" →
      lowerStr (stripStr (⟨"Variable", "subscriptions", "balanced", "Medium", 0, 0, 0, 0, 0, 0.5⟩ : EngineProfile).category) ≠ "travel" → 0.6 ≤ (⟨"Variable", "subscriptions", "balanced", "Medium", 0, 0, 0, 0, 0, 0.5⟩ : EngineProfile).weekend_ratio →
      light_touch_strategy (⟨"Variable", "subscriptions", "balanced", "Medium", 0, 0, 0, 0, 0, 0.5⟩ : EngineProfile)
        = "Set a weekend budget cap for this category and track adherence weekly.") ∧
    (lowerStr (stripStr (⟨"Variable", "subscriptions", "balanced", "Medium", 0, 0, 0, 0, 0, 0.5⟩ : EngineProfile).category) ≠ "subscriptions" →
      lowerStr (stripStr (⟨"Variable", "subscriptions", "balanced", "Medium", 0, 0, 0, 0, 0, 0.5⟩ : EngineProfile).category) ≠ "travel" → ¬ (0.6 ≤ (⟨"Variable", "subscriptions", "balanced", "Medium", 0, 0, 0, 0, 0, 0.5⟩ : EngineProfile).weekend_ratio) →
      2000 ≤ (⟨"Variable", "subscriptions", "balanced", "Medium", 0, 0, 0, 0, 0, 0.5⟩ : EngineProfile).spend →
      light_touch_strategy (⟨"Variable", "subscriptions", "balanced", "Medium", 0, 0, 0, 0, 0, 0.5⟩ : EngineProfile)
        = "Set a per-transaction budget limit and review exceptions at month-end.") ∧
    (lowerStr (stripStr (⟨"Variable", "subscriptions", "balanced", "Medium", 0, 0, 0, 0, 0, 0.5⟩ : EngineProfile).category) ≠ "subscriptions" →
      lowerStr (stripStr (⟨"Variable", "subscriptions", "balanced", "Medium", 0, 0, 0, 0, 0, 0.5⟩ : EngineProfile).category) ≠ "travel" → ¬ (0.6 ≤ (⟨"Variable", "subscriptions", "balanced", "Medium", 0, 0, 0, 0, 0, 0.5⟩ : EngineProfile).weekend_ratio) →
      ¬ (2000 ≤ (⟨"Variable", "subscriptions", "balanced", "Medium", 0, 0, 0, 0, 0, 0.5⟩ : EngineProfile).spend) → 3 ≤ (⟨"Variable", "subscriptions", "balanced", "Medium", 0, 0, 0, 0, 0, 0.5⟩ : EngineProfile).frequency →
      light_touch_strategy (⟨"Variable", "subscriptions", "balanced", "Medium", 0, 0, 0, 0, 0, 0.5⟩ : EngineProfile)
        = "Use pre-planned purchase slots for this category and avoid unscheduled repeats.") ∧
    (lowerStr (stripStr (⟨"Variable", "subscriptions", "balanced", "Medium", 0, 0, 0, 0, 0, 0.5⟩ : EngineProfile).category) ≠ "subscriptions" →
      lowerStr (stripStr (⟨"Variable", "subscriptions", "balanced", "Medium", 0, 0, 0, 0, 0, 0.5⟩ : EngineProfile).category) ≠ "travel" → ¬ (0.6 ≤ (⟨"Variable", "subscriptions", "balanced", "Medium", 0, 0, 0, 0, 0, 0.5⟩ : EngineProfile).weekend_ratio) →
      ¬ (2000 ≤ (⟨"Variable", "subscriptions", "balanced", "Medium", 0, 0, 0, 0, 0, 0.5⟩ : EngineProfile).spend) → ¬ (3 ≤ (⟨"Variable", "subscriptions", "balanced", "Medium", 0, 0, 0, 0, 0, 0.5⟩ : EngineProfile).frequency) →
      light_touch_strategy (⟨"Variable", "subscriptions", "balanced", "Medium", 0, 0, 0, 0, 0, 0.5⟩ : EngineProfile)
        = "No strong behavioral pattern is currently detected; continue periodic category monitoring.")) :=
  ⟨by decide, rfl,
    light_touch_single (fun x : ℚ => x) none (fun _ _ => [])
      (⟨false, "", "Low", 0⟩ : EngineHabit)
      (⟨"Variable", "subscriptions", "balanced", "Medium", 0, 0, 0, 0, 0, 0.5⟩ : EngineProfile) {} 5 (by decide) rfl⟩
